import Mathlib

/-!
Shallow embedding of the agent-based ecosystem simulator
(models/Organism.ts, models/Producer.ts, models/Consumer.ts,
models/Decomposer.ts, models/Environment.ts, models/Grid.ts and the
orchestration in hooks/useSimulation.ts).  JavaScript numbers are
modelled by ℚ, JS `||` defaulting by explicit helpers, and every call
to `Math.random()` by a value drawn from an explicit stream
`ℕ → ℚ` of numbers in `[0, 1)`.
-/

namespace Ecosim

/-- JS `v || d` on numbers: `0` (and `undefined`, handled by `Option`) falls
back to the default. -/
def jsOr (v d : ℚ) : ℚ := if v = 0 then d else v

/-- JS `v || d` where `v` may be absent (`undefined`). -/
def jsOrO (v : Option ℚ) (d : ℚ) : ℚ :=
  match v with
  | none => d
  | some x => jsOr x d

/-- JS `s || d` on strings: the empty string falls back to the default. -/
def jsOrS (s d : String) : String := if s = "" then d else s

/-- JS `s || d` on possibly-absent strings. -/
def jsOrSO (s : Option String) (d : String) : String :=
  match s with
  | none => d
  | some x => jsOrS x d

/-- JS `v || d` on integers (grid dimensions, day counters). -/
def jsOrZ (v d : ℤ) : ℤ := if v = 0 then d else v

def jsOrZO (v : Option ℤ) (d : ℤ) : ℤ :=
  match v with
  | none => d
  | some x => jsOrZ x d

/-- `Math.max(lo, Math.min(hi, v))`. -/
def clampQ (lo hi v : ℚ) : ℚ := max lo (min hi v)

/-- A stream of `Math.random()` results. -/
def Rng := ℕ → ℚ

/-- `Math.floor(r * n)` used to pick an index into an array of length `n`. -/
def randIndex (r : ℚ) (n : ℕ) : ℕ := (Rat.floor (r * n)).toNat

/-- The last `n` elements of a list, as JS `Array.prototype.slice(-n)`. -/
def takeLast (n : ℕ) (xs : List α) : List α := xs.drop (xs.length - n)

/-- Replace the `i`-th element of a list (no-op when out of range). -/
def listModify (i : ℕ) (f : α → α) : List α → List α
  | [] => []
  | a :: as =>
    match i with
    | 0 => f a :: as
    | n + 1 => a :: listModify n f as

/-- Sum of a list of rationals (JS `reduce((s, v) => s + v, 0)`). -/
def sumQ (xs : List ℚ) : ℚ := xs.foldl (· + ·) 0

-- ---------------------------------------------------------------------------
-- types/types.ts
-- ---------------------------------------------------------------------------

inductive OrganismType
  | Producer
  | Consumer
  | Decomposer
deriving DecidableEq, Repr

inductive ConsumerType
  | Herbivore
  | Carnivore
  | Omnivore
deriving DecidableEq, Repr

inductive Season
  | Spring
  | Summer
  | Fall
  | Winter
deriving DecidableEq, Repr

inductive DisturbanceType
  | Fire
  | Drought
  | Flood
  | Disease
  | HumanActivity
  | NoneType
deriving DecidableEq, Repr

structure Position where
  x : ℤ
  y : ℤ
deriving DecidableEq, Repr

structure Area where
  startX : ℤ
  startY : ℤ
  endX : ℤ
  endY : ℤ
deriving DecidableEq, Repr

structure Disturbance where
  dtype : DisturbanceType
  intensity : ℚ
  duration : ℚ
  affectedArea : Area
  current : ℚ
  active : Bool
deriving DecidableEq, Repr

structure EnvConfig where
  temperature : ℚ
  rainfall : ℚ
  seasonalFactor : ℚ
  nutrientLevel : ℚ
  sunlightIntensity : ℚ
  width : ℤ
  height : ℤ
  pollutionLevel : ℚ
  season : Season
  day : ℤ
deriving DecidableEq, Repr

structure Cell where
  x : ℤ
  y : ℤ
  height : ℚ
  nutrientLevel : ℚ
  waterLevel : ℚ
  organisms : List String
  temperature : ℚ
  pollutionLevel : ℚ
deriving DecidableEq, Repr

/-- Kind-specific attribute payload carried by `getAttributes()` of the
three subclasses (absent on attributes produced by the base class). -/
inductive KindPayload
  | producerP (growthRate photosynthesisRate waterConsumption : ℚ)
  | consumerP (consumerType : ConsumerType) (huntingEfficiency metabolismRate : ℚ)
      (diet : List String)
  | decomposerP (decompositionRate nutrientProductionRate : ℚ)
deriving DecidableEq, Repr

/-- A record in the organism table of the orchestrator (`OrganismAttributes`
plus the subclass extension fields when present). -/
structure OrgAttrs where
  id : String
  otype : OrganismType
  position : Position
  energy : ℚ
  size : ℚ
  age : ℚ
  maxAge : ℚ
  reproductionEnergy : ℚ
  reproductionRate : ℚ
  movementCost : ℚ
  isDead : Bool
  species : String
  payload : Option KindPayload
deriving DecidableEq, Repr

/-- `Partial<...Attributes>`: every field optional, as handed to the
class constructors. -/
structure PAttrs where
  id : Option String
  otype : Option OrganismType
  position : Option Position
  energy : Option ℚ
  size : Option ℚ
  age : Option ℚ
  maxAge : Option ℚ
  reproductionEnergy : Option ℚ
  reproductionRate : Option ℚ
  movementCost : Option ℚ
  isDead : Option Bool
  species : Option String
  growthRate : Option ℚ
  photosynthesisRate : Option ℚ
  waterConsumption : Option ℚ
  consumerType : Option ConsumerType
  huntingEfficiency : Option ℚ
  metabolismRate : Option ℚ
  diet : Option (List String)
  decompositionRate : Option ℚ
  nutrientProductionRate : Option ℚ
deriving Repr

/-- The all-absent attribute record (`{}`). -/
def PAttrs.empty : PAttrs :=
  ⟨none, none, none, none, none, none, none, none, none, none, none,
   none, none, none, none, none, none, none, none, none, none⟩

/-- View a stored attribute record as a (fully present) partial record,
as happens when the orchestrator passes a table entry back to a class
constructor (`new Producer(organism)`). -/
def OrgAttrs.toPAttrs (a : OrgAttrs) : PAttrs :=
  { PAttrs.empty with
    id := some a.id
    otype := some a.otype
    position := some a.position
    energy := some a.energy
    size := some a.size
    age := some a.age
    maxAge := some a.maxAge
    reproductionEnergy := some a.reproductionEnergy
    reproductionRate := some a.reproductionRate
    movementCost := some a.movementCost
    isDead := some a.isDead
    species := some a.species
    growthRate :=
      match a.payload with
      | some (.producerP g _ _) => some g
      | _ => none
    photosynthesisRate :=
      match a.payload with
      | some (.producerP _ p _) => some p
      | _ => none
    waterConsumption :=
      match a.payload with
      | some (.producerP _ _ w) => some w
      | _ => none
    consumerType :=
      match a.payload with
      | some (.consumerP ct _ _ _) => some ct
      | _ => none
    huntingEfficiency :=
      match a.payload with
      | some (.consumerP _ h _ _) => some h
      | _ => none
    metabolismRate :=
      match a.payload with
      | some (.consumerP _ _ m _) => some m
      | _ => none
    diet :=
      match a.payload with
      | some (.consumerP _ _ _ d) => some d
      | _ => none
    decompositionRate :=
      match a.payload with
      | some (.decomposerP d _) => some d
      | _ => none
    nutrientProductionRate :=
      match a.payload with
      | some (.decomposerP _ n) => some n
      | _ => none }

/-- The `consumerType` field as read off a table record by the
orchestrator (`(o as any).consumerType`, `undefined` when absent). -/
def OrgAttrs.consumerTypeField (a : OrgAttrs) : Option ConsumerType :=
  match a.payload with
  | some (.consumerP ct _ _ _) => some ct
  | _ => none

-- ---------------------------------------------------------------------------
-- models/Organism.ts
-- ---------------------------------------------------------------------------

structure Organism where
  id : String
  otype : OrganismType
  position : Position
  energy : ℚ
  size : ℚ
  age : ℚ
  maxAge : ℚ
  reproductionEnergy : ℚ
  reproductionRate : ℚ
  movementCost : ℚ
  isDead : Bool
  species : String
deriving DecidableEq, Repr

/-- The `Organism` constructor.  `freshId` stands for the `uuidv4()`
drawn when no id is supplied. -/
def newOrganism (a : PAttrs) (freshId : String) : Organism :=
  { id := jsOrSO a.id freshId
    otype := a.otype.getD OrganismType.Producer
    position := a.position.getD ⟨0, 0⟩
    energy := jsOrO a.energy 100
    size := jsOrO a.size 1
    age := jsOrO a.age 0
    maxAge := jsOrO a.maxAge 100
    reproductionEnergy := jsOrO a.reproductionEnergy 150
    reproductionRate := jsOrO a.reproductionRate (1/5)
    movementCost := jsOrO a.movementCost 1
    isDead := a.isDead.getD false
    species := jsOrSO a.species "Generic Organism" }

def Organism.update (o : Organism) : Organism :=
  let o := { o with age := o.age + 1 }
  if o.age ≥ o.maxAge then { o with isDead := true }
  else if o.energy ≤ 0 then { o with isDead := true }
  else o

def Organism.move (o : Organism) (newPosition : Position) : Organism :=
  { o with position := newPosition, energy := o.energy - o.movementCost }

/-- `canReproduce()`.  The `Math.random()` draw happens only when the
energy test passes (JS `&&` short-circuits); the caller accounts for
stream consumption. -/
def Organism.canReproduce (o : Organism) (r : ℚ) : Bool :=
  decide (o.energy ≥ o.reproductionEnergy) && decide (r < o.reproductionRate)

def Organism.die (o : Organism) : Organism := { o with isDead := true }

/-- `reproduce()`: the five jitters are the five `Math.random()` draws in
source order (size, maxAge, reproductionEnergy, reproductionRate,
movementCost); returns the mutated parent and the offspring. -/
def Organism.reproduce (o : Organism) (r1 r2 r3 r4 r5 : ℚ) (freshId : String) :
    Organism × Organism :=
  let offspringAttributes : PAttrs :=
    { PAttrs.empty with
      otype := some o.otype
      position := some o.position
      energy := some (o.energy * (1/2))
      size := some (o.size * (9/10 + r1 * (1/5)))
      maxAge := some (o.maxAge * (9/10 + r2 * (1/5)))
      reproductionEnergy := some (o.reproductionEnergy * (9/10 + r3 * (1/5)))
      reproductionRate := some (o.reproductionRate * (9/10 + r4 * (1/5)))
      movementCost := some (o.movementCost * (9/10 + r5 * (1/5)))
      species := some o.species }
  let parent := { o with energy := o.energy * (1/2) }
  (parent, newOrganism offspringAttributes freshId)

def Organism.getAttributes (o : Organism) : OrgAttrs :=
  { id := o.id
    otype := o.otype
    position := o.position
    energy := o.energy
    size := o.size
    age := o.age
    maxAge := o.maxAge
    reproductionEnergy := o.reproductionEnergy
    reproductionRate := o.reproductionRate
    movementCost := o.movementCost
    isDead := o.isDead
    species := o.species
    payload := none }

-- ---------------------------------------------------------------------------
-- models/Producer.ts  (src/unnamed/part_001)
-- ---------------------------------------------------------------------------

structure Producer where
  base : Organism
  growthRate : ℚ
  photosynthesisRate : ℚ
  waterConsumption : ℚ
deriving DecidableEq, Repr

/-- The `Producer` constructor: spreads the attributes, forces the type
and a species default, and passes `movementCost: 0` down to the base
constructor (where `0 || 1` turns it into 1). -/
def newProducer (a : PAttrs) (freshId : String) : Producer :=
  { base :=
      newOrganism
        { a with
          otype := some OrganismType.Producer
          species := some (jsOrSO a.species "Basic Plant")
          movementCost := some 0 }
        freshId
    growthRate := jsOrO a.growthRate (1/10)
    photosynthesisRate := jsOrO a.photosynthesisRate (1/4)
    waterConsumption := jsOrO a.waterConsumption (2/25) }

def Producer.getTemperatureFactor (temperature : ℚ) : ℚ :=
  max (1/10) (1 - |temperature - 25| / 18)

def Producer.getSeasonalFactor (seasonalFactor : ℚ) : ℚ :=
  max (3/10) seasonalFactor

def Producer.update (p : Producer) (env : EnvConfig)
    (cellNutrientLevel cellWaterLevel : ℚ) : Producer :=
  let p := { p with base := p.base.update }
  if p.base.isDead then p
  else
    let environmentFactor :=
      (env.sunlightIntensity / 100) *
        Producer.getTemperatureFactor env.temperature *
        (1 - env.pollutionLevel / 100) *
        Producer.getSeasonalFactor env.seasonalFactor
    let resourceFactor := min (cellNutrientLevel / 100) (cellWaterLevel / 100)
    let energyGain := p.photosynthesisRate * environmentFactor * resourceFactor * 12
    let p := { p with base := { p.base with energy := p.base.energy + energyGain } }
    if p.base.energy > 110 ∧ resourceFactor > 2/5 then
      { p with base :=
          { p.base with energy := p.base.energy - p.growthRate * 8,
                        size := p.base.size + p.growthRate * resourceFactor } }
    else p

def Producer.getAttributes (p : Producer) : OrgAttrs :=
  { p.base.getAttributes with
    payload := some (.producerP p.growthRate p.photosynthesisRate p.waterConsumption) }

-- ---------------------------------------------------------------------------
-- models/Consumer.ts
-- ---------------------------------------------------------------------------

structure Consumer where
  base : Organism
  consumerType : ConsumerType
  huntingEfficiency : ℚ
  metabolismRate : ℚ
  diet : List String
deriving DecidableEq, Repr

def newConsumer (a : PAttrs) (freshId : String) : Consumer :=
  { base :=
      newOrganism
        { a with
          otype := some OrganismType.Consumer
          species := some (jsOrSO a.species "Basic Consumer") }
        freshId
    consumerType := a.consumerType.getD ConsumerType.Herbivore
    huntingEfficiency := jsOrO a.huntingEfficiency (1/2)
    metabolismRate := jsOrO a.metabolismRate (2/25)
    diet := a.diet.getD [] }

def Consumer.getTemperatureFactor (temperature : ℚ) : ℚ :=
  1 + (|temperature - 22| / 25) * (1/2)

def Consumer.getSeasonalFactor (seasonalFactor : ℚ) : ℚ :=
  13/10 - seasonalFactor * (2/5)

def Consumer.update (c : Consumer) (env : EnvConfig) : Consumer :=
  let c := { c with base := c.base.update }
  if c.base.isDead then c
  else
    let baseCost := c.base.size * c.metabolismRate
    let temperatureFactor := Consumer.getTemperatureFactor env.temperature
    let seasonalFactor := Consumer.getSeasonalFactor env.seasonalFactor
    let energyCost := baseCost * temperatureFactor * seasonalFactor
    { c with base := { c.base with energy := c.base.energy - energyCost } }

/-- `eat(prey)`.  `r` is the `Math.random()` success draw (consumed only
when neither party is dead); returns the updated consumer, the updated
prey and the returned energy gain. -/
def Consumer.eat (c : Consumer) (prey : Organism) (r : ℚ) :
    Consumer × Organism × ℚ :=
  if c.base.isDead || prey.isDead then (c, prey, 0)
  else
    let sizeFactor := prey.size / c.base.size
    if r < c.huntingEfficiency / (sizeFactor + 3/10) then
      let energyGain := prey.energy * (4/5)
      ({ c with base := { c.base with energy := c.base.energy + energyGain } },
       prey.die, energyGain)
    else
      ({ c with base := { c.base with energy := c.base.energy - c.base.movementCost * (3/2) } },
       prey, 0)

/-- `canEat(organism)` reads the `type` tag of the target. -/
def Consumer.canEat (c : Consumer) (targetType : OrganismType) : Bool :=
  match c.consumerType with
  | ConsumerType.Herbivore => targetType = OrganismType.Producer
  | ConsumerType.Carnivore => targetType = OrganismType.Consumer
  | ConsumerType.Omnivore =>
      targetType = OrganismType.Producer || targetType = OrganismType.Consumer

def Consumer.getAttributes (c : Consumer) : OrgAttrs :=
  { c.base.getAttributes with
    payload := some (.consumerP c.consumerType c.huntingEfficiency c.metabolismRate c.diet) }

-- ---------------------------------------------------------------------------
-- models/Decomposer.ts
-- ---------------------------------------------------------------------------

structure Decomposer where
  base : Organism
  decompositionRate : ℚ
  nutrientProductionRate : ℚ
deriving DecidableEq, Repr

def newDecomposer (a : PAttrs) (freshId : String) : Decomposer :=
  { base :=
      newOrganism
        { a with
          otype := some OrganismType.Decomposer
          species := some (jsOrSO a.species "Basic Decomposer") }
        freshId
    decompositionRate := jsOrO a.decompositionRate (7/20)
    nutrientProductionRate := jsOrO a.nutrientProductionRate (1/4) }

def Decomposer.getTemperatureFactor (temperature : ℚ) : ℚ :=
  if temperature < 0 then 1/5
  else if temperature > 40 then 3/5
  else if 15 ≤ temperature ∧ temperature ≤ 35 then 1
  else if temperature < 15 then 1/5 + (temperature / 15) * (4/5)
  else 1 - ((temperature - 35) / 10) * (2/5)

def Decomposer.update (d : Decomposer) (env : EnvConfig)
    (deadOrganismCount : ℚ) : Decomposer × ℚ :=
  let d := { d with base := d.base.update }
  if d.base.isDead then (d, 0)
  else
    let deadMatterFactor := min 1 (deadOrganismCount / 4)
    let moistureFactor := max (3/10) (env.rainfall / 100)
    let temperatureFactor := Decomposer.getTemperatureFactor env.temperature
    let decompositionEfficiency :=
      d.decompositionRate * deadMatterFactor * moistureFactor * temperatureFactor
    let energyGain := decompositionEfficiency * 12 * deadOrganismCount
    let d := { d with base := { d.base with energy := d.base.energy + energyGain } }
    let nutrientsProduced :=
      d.nutrientProductionRate * decompositionEfficiency * deadOrganismCount
    if d.base.energy > 130 ∧ deadMatterFactor > 1/4 then
      ({ d with base :=
          { d.base with size := d.base.size + (3/50) * deadMatterFactor,
                        energy := d.base.energy - 4 } },
       nutrientsProduced)
    else (d, nutrientsProduced)

def Decomposer.decompose (d : Decomposer) (deadOrganism : OrgAttrs) :
    Decomposer × ℚ :=
  if d.base.isDead then (d, 0)
  else
    let energyGain := deadOrganism.size * 6 * d.decompositionRate
    ({ d with base := { d.base with energy := d.base.energy + energyGain } },
     deadOrganism.size * d.nutrientProductionRate)

def Decomposer.getAttributes (d : Decomposer) : OrgAttrs :=
  { d.base.getAttributes with
    payload := some (.decomposerP d.decompositionRate d.nutrientProductionRate) }

-- ---------------------------------------------------------------------------
-- types/types.ts: SimulationConfig
-- ---------------------------------------------------------------------------

structure SimConfig where
  gridWidth : ℤ
  gridHeight : ℤ
  initialProducers : ℤ
  initialHerbivores : ℤ
  initialCarnivores : ℤ
  initialDecomposers : ℤ
  simulationSpeed : ℚ
  initialTemperature : ℚ
  initialRainfall : ℚ
  enableEvolution : Bool
  enableDisturbances : Bool
deriving DecidableEq, Repr

-- ---------------------------------------------------------------------------
-- models/Environment.ts
-- ---------------------------------------------------------------------------

/-- `Partial<EnvironmentConfig>` as handed to the `Environment`
constructor. -/
structure PEnvConfig where
  temperature : Option ℚ
  rainfall : Option ℚ
  seasonalFactor : Option ℚ
  nutrientLevel : Option ℚ
  sunlightIntensity : Option ℚ
  width : Option ℤ
  height : Option ℤ
  pollutionLevel : Option ℚ
  season : Option Season
  day : Option ℤ
deriving Repr

def PEnvConfig.empty : PEnvConfig :=
  ⟨none, none, none, none, none, none, none, none, none, none⟩

def EnvConfig.toPartial (c : EnvConfig) : PEnvConfig :=
  ⟨some c.temperature, some c.rainfall, some c.seasonalFactor,
   some c.nutrientLevel, some c.sunlightIntensity, some c.width,
   some c.height, some c.pollutionLevel, some c.season, some c.day⟩

structure Environment where
  config : EnvConfig
  day : ℤ
  disturbances : List Disturbance
deriving DecidableEq, Repr

/-- `yearLength = 120` days, four equal seasons. -/
def Environment.yearLength : ℤ := 120

def Environment.seasonLength : ℤ := Environment.yearLength / 4

/-- The `Environment` constructor: `day` starts at 0, the disturbance
list starts empty, and every config field falls back through JS `||`
(`config.width || (simulationConfig?.gridWidth || 50)` and so on). -/
def newEnvironment (config : PEnvConfig) (simulationConfig : Option SimConfig) :
    Environment :=
  { day := 0
    config :=
      { temperature := jsOrO config.temperature 25
        rainfall := jsOrO config.rainfall 50
        seasonalFactor := jsOrO config.seasonalFactor 1
        nutrientLevel := jsOrO config.nutrientLevel 50
        sunlightIntensity := jsOrO config.sunlightIntensity 80
        width :=
          jsOrZO config.width
            (match simulationConfig with
             | some s => jsOrZ s.gridWidth 50
             | none => 50)
        height :=
          jsOrZO config.height
            (match simulationConfig with
             | some s => jsOrZ s.gridHeight 50
             | none => 50)
        pollutionLevel := jsOrO config.pollutionLevel 10
        season := config.season.getD Season.Spring
        day := jsOrZO config.day 0 }
    disturbances := [] }

/-- `updateSeasonalFactors`; `j1`, `j2` are the two `Math.random()`
jitters. -/
def Environment.updateSeasonalFactors (e : Environment) (j1 j2 : ℚ) :
    Environment :=
  let dayInSeason : ℤ := e.day % Environment.seasonLength
  let seasonProgress : ℚ := (dayInSeason : ℚ) / (Environment.seasonLength : ℚ)
  let cfg := e.config
  let cfg :=
    match cfg.season with
    | Season.Spring =>
        { cfg with
          temperature := 15 + 10 * seasonProgress
          rainfall := 40 + 20 * seasonProgress
          sunlightIntensity := 60 + 20 * seasonProgress
          seasonalFactor := 7/10 + 3/10 * seasonProgress }
    | Season.Summer =>
        { cfg with
          temperature := 25 + 5 * (1 - seasonProgress)
          rainfall := 60 - 20 * seasonProgress
          sunlightIntensity := 80 + 20 * (1 - seasonProgress)
          seasonalFactor := 1 }
    | Season.Fall =>
        { cfg with
          temperature := 25 - 15 * seasonProgress
          rainfall := 40 - 10 * seasonProgress
          sunlightIntensity := 60 - 20 * seasonProgress
          seasonalFactor := 7/10 - 1/5 * seasonProgress }
    | Season.Winter =>
        { cfg with
          temperature := 10 - 5 * seasonProgress
          rainfall := 30 - 10 * (1 - seasonProgress)
          sunlightIntensity := 40 + 20 * seasonProgress
          seasonalFactor := 1/2 + 1/5 * seasonProgress }
  let cfg := { cfg with temperature := cfg.temperature + (j1 * 2 - 1) }
  let cfg := { cfg with rainfall := cfg.rainfall + (j2 * 4 - 2) }
  let cfg := { cfg with temperature := max (-10) (min 40 cfg.temperature) }
  let cfg := { cfg with rainfall := max 10 (min 100 cfg.rainfall) }
  let cfg := { cfg with sunlightIntensity := max 30 (min 100 cfg.sunlightIntensity) }
  { e with config := cfg }

/-- The aging step of `updateDisturbances` on the disturbance list: each
active disturbance ages by one tick and is dropped once
`current ≥ duration`; inactive entries are dropped too. -/
def agePass (l : List Disturbance) : List Disturbance :=
  l.filterMap fun d =>
    if !d.active then none
    else
      let d := { d with current := d.current + 1 }
      if d.current ≥ d.duration then none
      else some d

/-- `updateDisturbances`. -/
def Environment.updateDisturbances (e : Environment) : Environment :=
  { e with disturbances := agePass e.disturbances }

def Environment.addDisturbance (e : Environment) (dtype : DisturbanceType)
    (intensity duration : ℚ) (affectedArea : Area) :
    Disturbance × Environment :=
  let disturbance : Disturbance :=
    { dtype := dtype, intensity := intensity, duration := duration,
      affectedArea := affectedArea, current := 0, active := true }
  let e := { e with disturbances := e.disturbances ++ [disturbance] }
  let cfg := e.config
  let cfg :=
    match dtype with
    | DisturbanceType.Fire =>
        { cfg with temperature := cfg.temperature + 5 * intensity }
    | DisturbanceType.Drought =>
        { cfg with rainfall := cfg.rainfall * (1 - 3/10 * intensity) }
    | DisturbanceType.Flood =>
        { cfg with rainfall := cfg.rainfall + 30 * intensity }
    | DisturbanceType.HumanActivity =>
        { cfg with pollutionLevel := cfg.pollutionLevel + 20 * intensity }
    | _ => cfg
  let cfg := { cfg with temperature := max (-10) (min 45 cfg.temperature) }
  let cfg := { cfg with rainfall := max 5 (min 100 cfg.rainfall) }
  let cfg := { cfg with pollutionLevel := max 0 (min 100 cfg.pollutionLevel) }
  (disturbance, { e with config := cfg })

/-- `generateRandomDisturbance`, drawing from the stream starting at
index `k`; returns the next unused index. -/
def Environment.generateRandomDisturbance (e : Environment) (r : Rng) (k : ℕ) :
    Environment × ℕ :=
  let disturbanceTypes :=
    [DisturbanceType.Fire, DisturbanceType.Drought, DisturbanceType.Flood,
     DisturbanceType.Disease, DisturbanceType.HumanActivity]
  let dtype := (disturbanceTypes.get? (randIndex (r k) 5)).getD DisturbanceType.Fire
  let intensity : ℚ := 1/5 + r (k+1) * (1/2)
  let duration : ℚ := 3 + (Rat.floor (r (k+2) * 8) : ℤ)
  let width := e.config.width
  let height := e.config.height
  let centerX : ℤ := Rat.floor (r (k+3) * (width : ℚ))
  let centerY : ℤ := Rat.floor (r (k+4) * (height : ℚ))
  let radius : ℤ := Rat.floor (r (k+5) * ((min width height : ℤ) / (6:ℚ))) + 2
  let affectedArea : Area :=
    { startX := max 0 (centerX - radius)
      startY := max 0 (centerY - radius)
      endX := min (width - 1) (centerX + radius)
      endY := min (height - 1) (centerY + radius) }
  ((e.addDisturbance dtype intensity duration affectedArea).2, k + 6)

def Environment.getActiveDisturbances (e : Environment) : List Disturbance :=
  e.disturbances.filter (·.active)

def Environment.getConfig (e : Environment) : EnvConfig := e.config

/-- `Environment.update()`: advance the day, recompute season and the
seasonal climate curves (two jitter draws), age disturbances, then with
probability 0.05% (one draw) spawn a random disturbance (six draws). -/
def Environment.update (e : Environment) (r : Rng) (k : ℕ) :
    Environment × ℕ :=
  let e := { e with day := e.day + 1 }
  let e := { e with config := { e.config with day := e.day } }
  let dayInYear : ℤ := e.day % Environment.yearLength
  let seasonIndex : ℤ := dayInYear / Environment.seasonLength
  let seasons := [Season.Spring, Season.Summer, Season.Fall, Season.Winter]
  let e :=
    { e with config :=
        { e.config with season := (seasons.get? seasonIndex.toNat).getD Season.Spring } }
  let e := e.updateSeasonalFactors (r k) (r (k+1))
  let e := e.updateDisturbances
  if r (k+2) < 1/2000 then e.generateRandomDisturbance r (k+3)
  else (e, k + 3)

-- ---------------------------------------------------------------------------
-- models/Grid.ts (operations; the randomized constructor comes later)
-- ---------------------------------------------------------------------------

structure Grid where
  width : ℤ
  height : ℤ
  cells : List (List Cell)
deriving DecidableEq, Repr

def Grid.getCell (g : Grid) (position : Position) : Option Cell :=
  if 0 ≤ position.x ∧ position.x < g.width ∧ 0 ≤ position.y ∧ position.y < g.height then
    (g.cells.get? position.y.toNat).bind (·.get? position.x.toNat)
  else none

/-- Replace the cell at `position` (in bounds by the same test as
`getCell`); mirrors in-place mutation of `this.cells[y][x]`. -/
def Grid.modifyCell (g : Grid) (position : Position) (f : Cell → Cell) : Grid :=
  if 0 ≤ position.x ∧ position.x < g.width ∧ 0 ≤ position.y ∧ position.y < g.height then
    { g with cells := listModify position.y.toNat (listModify position.x.toNat f) g.cells }
  else g

def Grid.addOrganism (g : Grid) (organism : OrgAttrs) : Bool × Grid :=
  match g.getCell organism.position with
  | some _ =>
      (true, g.modifyCell organism.position
        fun c => { c with organisms := c.organisms ++ [organism.id] })
  | none => (false, g)

def Grid.removeOrganism (g : Grid) (organismId : String) (position : Position) :
    Bool × Grid :=
  match g.getCell position with
  | some cell =>
      if organismId ∈ cell.organisms then
        (true, g.modifyCell position
          fun c => { c with organisms := c.organisms.erase organismId })
      else (false, g)
  | none => (false, g)

def Grid.moveOrganism (g : Grid) (organismId : String)
    (oldPosition newPosition : Position) : Bool × Grid :=
  if newPosition.x < 0 ∨ newPosition.x ≥ g.width ∨
     newPosition.y < 0 ∨ newPosition.y ≥ g.height then
    (false, g)
  else
    let res := g.removeOrganism organismId oldPosition
    if !res.1 then (false, res.2)
    else
      match res.2.getCell newPosition with
      | some _ =>
          (true, res.2.modifyCell newPosition
            fun c => { c with organisms := c.organisms ++ [organismId] })
      | none => (false, res.2)

/-- The per-cell `updateEnvironment` body, reading neighbours from the
current (partially updated) grid, exactly as the in-place loop does. -/
def Grid.updateEnvironmentCell (g : Grid) (env : EnvConfig) (x y : ℕ) : Grid :=
  match (g.cells.get? y).bind (·.get? x) with
  | none => g
  | some cell =>
    let elevationFactor := 1 + cell.height * (3/10)
    let drainageFactor := min 1 (cell.height * (2/5))
    let baseEvaporationRate := (2/25) * (1 + (env.temperature - 20) / 15)
    let elevationEvaporationRate := baseEvaporationRate * elevationFactor
    let elevationRainfallReduction := min (7/10) (cell.height * (1/5))
    let effectiveRainfall := env.rainfall * (1 - elevationRainfallReduction)
    let rainAddition := effectiveRainfall * (3/20) * env.seasonalFactor
    let drainageAmount := cell.waterLevel * drainageFactor * (1/10)
    let newWaterLevel :=
      cell.waterLevel * (1 - elevationEvaporationRate) + rainAddition - drainageAmount
    let maxWaterLevel := max 20 (100 - cell.height * 30)
    let newWaterLevel := max 0 (min maxWaterLevel newWaterLevel)
    let cell := { cell with waterLevel := newWaterLevel }
    let neighbors : List Position :=
      [⟨(x:ℤ) - 1, (y:ℤ)⟩, ⟨(x:ℤ) + 1, (y:ℤ)⟩, ⟨(x:ℤ), (y:ℤ) - 1⟩, ⟨(x:ℤ), (y:ℤ) + 1⟩]
    let step :=
      neighbors.foldl
        (fun (acc : ℚ × ℕ) n =>
          match g.getCell n with
          | some neighborCell =>
              let heightDifference := cell.height - neighborCell.height
              let flowModifier : ℚ := if heightDifference > 0 then 3/2 else 7/10
              let nutrientDifference :=
                (neighborCell.nutrientLevel - cell.nutrientLevel) * flowModifier
              (acc.1 + nutrientDifference, acc.2 + 1)
          | none => acc)
        (0, 0)
    let cell :=
      if step.2 > 0 then
        { cell with nutrientLevel :=
            (cell.nutrientLevel + step.1 * (1/100) / (step.2 : ℚ)) }
      else cell
    let elevationTempReduction := cell.height * 2
    let targetTemperature := env.temperature - elevationTempReduction
    let cell :=
      { cell with temperature :=
          (cell.temperature * (1 - 1/5) + targetTemperature * (1/5)) }
    let elevationPollutionReduction := cell.height * (1/10)
    let targetPollution := max 0 (env.pollutionLevel - elevationPollutionReduction)
    let cell :=
      { cell with pollutionLevel :=
          (max 0 (cell.pollutionLevel * (1 - 1/100) + targetPollution * (1/50))) }
    { g with cells := listModify y (listModify x (fun _ => cell)) g.cells }

/-- `updateEnvironment(envConfig)`: the row-major in-place sweep. -/
def Grid.updateEnvironment (g : Grid) (env : EnvConfig) : Grid :=
  (List.range g.height.toNat).foldl
    (fun g y =>
      (List.range g.width.toNat).foldl
        (fun g x => g.updateEnvironmentCell env x y) g)
    g

/-- List of integers `lo, lo+1, ..., hi` (empty when `hi < lo`), the
index set of a JS `for (i = lo; i <= hi; i++)` loop. -/
def intRangeIncl (lo hi : ℤ) : List ℤ :=
  (List.range (hi + 1 - lo).toNat).map fun i => lo + (i : ℤ)

def Grid.applyDisturbanceCell (cell : Cell) (dtype : DisturbanceType)
    (intensity : ℚ) : Cell :=
  let elevationResistance := 1 - min (1/2) (cell.height * (1/5))
  let effectiveIntensity := intensity * elevationResistance
  match dtype with
  | DisturbanceType.Fire =>
      let fireIntensity := if cell.height > 1 then intensity * (13/10) else effectiveIntensity
      { cell with
        nutrientLevel := cell.nutrientLevel * (1 - 1/5 * fireIntensity)
        waterLevel := cell.waterLevel * (1 - 4/5 * fireIntensity)
        temperature := cell.temperature + 20 * fireIntensity }
  | DisturbanceType.Drought =>
      let droughtIntensity :=
        if cell.height > 1/2 then intensity * (7/5) else effectiveIntensity
      { cell with
        waterLevel := cell.waterLevel * (1 - 7/10 * droughtIntensity)
        temperature := cell.temperature + 5 * droughtIntensity }
  | DisturbanceType.Flood =>
      let floodIntensity :=
        if cell.height < 1/2 then intensity * (3/2) else effectiveIntensity * (3/10)
      { cell with
        waterLevel := min 100 (cell.waterLevel + 40 * floodIntensity)
        nutrientLevel := cell.nutrientLevel * (1 - 3/10 * floodIntensity) }
  | DisturbanceType.HumanActivity =>
      let humanIntensity :=
        if cell.height < 1 then intensity * (6/5) else effectiveIntensity * (3/5)
      { cell with
        nutrientLevel := cell.nutrientLevel * (1 - 2/5 * humanIntensity)
        pollutionLevel := min 100 (cell.pollutionLevel + 30 * humanIntensity) }
  | _ => cell

def Grid.applyDisturbance (g : Grid) (startX startY endX endY : ℤ)
    (dtype : DisturbanceType) (intensity : ℚ) : Grid :=
  (intRangeIncl (max 0 startY) (min (g.height - 1) endY)).foldl
    (fun g y =>
      (intRangeIncl (max 0 startX) (min (g.width - 1) endX)).foldl
        (fun g x =>
          match (g.cells.get? y.toNat).bind (·.get? x.toNat) with
          | none => g
          | some cell =>
              { g with cells :=
                  (listModify y.toNat
                    (listModify x.toNat
                      (fun _ => Grid.applyDisturbanceCell cell dtype intensity))
                    g.cells) })
        g)
    g

def Grid.getNearbyOrganisms (g : Grid) (position : Position) (radius : ℤ) :
    List String :=
  (intRangeIncl (max 0 (position.y - radius)) (min (g.height - 1) (position.y + radius))).foldl
    (fun acc y =>
      (intRangeIncl (max 0 (position.x - radius)) (min (g.width - 1) (position.x + radius))).foldl
        (fun acc x =>
          match (g.cells.get? y.toNat).bind (·.get? x.toNat) with
          | none => acc
          | some cell => acc ++ cell.organisms)
        acc)
    []

/-- `findAvailablePosition`: builds the score-weighted candidate list and
picks a uniformly random index (one draw, consumed only when the list is
nonempty); returns the chosen position and the next stream index. -/
def Grid.findAvailablePosition (g : Grid) (origin : Position) (maxDistance : ℤ)
    (r : Rng) (k : ℕ) : Option Position × ℕ :=
  let positions :=
    (intRangeIncl (max 0 (origin.y - maxDistance)) (min (g.height - 1) (origin.y + maxDistance))).foldl
      (fun acc y =>
        (intRangeIncl (max 0 (origin.x - maxDistance)) (min (g.width - 1) (origin.x + maxDistance))).foldl
          (fun (acc : List Position) x =>
            match (g.cells.get? y.toNat).bind (·.get? x.toNat) with
            | none => acc
            | some cell =>
                let baseScore : ℤ := 10 - min 10 (cell.organisms.length : ℤ)
                let elevationBonus : ℤ := if cell.height > 1 then 2 else 0
                let score := baseScore + elevationBonus
                acc ++ (List.range score.toNat).map (fun _ => (⟨x, y⟩ : Position)))
          acc)
      []
  if positions.length = 0 then (none, k)
  else (positions.get? (randIndex (r k) positions.length), k + 1)

def Grid.addNutrients (g : Grid) (position : Position) (amount : ℚ) : Grid :=
  match g.getCell position with
  | some _ =>
      g.modifyCell position
        fun c => { c with nutrientLevel := min 100 (c.nutrientLevel + amount) }
  | none => g

-- ---------------------------------------------------------------------------
-- hooks/useSimulation.ts: statistics
-- ---------------------------------------------------------------------------

structure Stats where
  producers : List ℚ
  herbivores : List ℚ
  carnivores : List ℚ
  decomposers : List ℚ
  biodiversityIndex : List ℚ
  averageTemperature : List ℚ
  averageRainfall : List ℚ
  totalEnergy : List ℚ
  totalNutrients : List ℚ
  stabilityIndex : List ℚ
deriving DecidableEq, Repr

def Stats.empty : Stats := ⟨[], [], [], [], [], [], [], [], [], []⟩

/-- The stability-index computation of `runCycle` (lines 747–760 of
useSimulation.ts): 1.0 unless more than 10 producer samples exist,
otherwise the total absolute deviation of the last 10 samples divided by
their mean, for producers and (zero-mean-guarded) herbivores. -/
def computeStabilityIndex (producers herbivores : List ℚ) : ℚ :=
  if producers.length > 10 then
    let recentProducers := takeLast 10 producers
    let avgProducers := sumQ recentProducers / (recentProducers.length : ℚ)
    let variationProducers :=
      sumQ (recentProducers.map fun val => |val - avgProducers|) / avgProducers
    let recentHerbivores := takeLast 10 herbivores
    let avgHerbivores := sumQ recentHerbivores / (recentHerbivores.length : ℚ)
    let variationHerbivores :=
      if avgHerbivores > 0 then
        sumQ (recentHerbivores.map fun val => |val - avgHerbivores|) / avgHerbivores
      else 0
    max 0 (1 - (variationProducers + variationHerbivores) / 4)
  else 1

-- ---------------------------------------------------------------------------
-- hooks/useSimulation.ts: runCycle
-- ---------------------------------------------------------------------------

/-- `Record<string, OrganismAttributes>`: an insertion-ordered table. -/
abbrev Table := List (String × OrgAttrs)

def tableGet (t : Table) (id : String) : Option OrgAttrs :=
  (t.find? fun p => p.1 == id).map (·.2)

/-- JS `obj[id] = v`: an existing key keeps its position, a new key is
appended. -/
def tableSet (t : Table) (id : String) (a : OrgAttrs) : Table :=
  if t.any (fun p => p.1 == id) then
    t.map fun p => if p.1 == id then (id, a) else p
  else t ++ [(id, a)]

def tableDelete (t : Table) (id : String) : Table :=
  t.filter fun p => p.1 != id

/-- `` `${x},${y}` `` cell keys for the per-cell dead-organism counts. -/
def posKey (p : Position) : String := toString p.x ++ "," ++ toString p.y

def countsGet (m : List (String × ℕ)) (key : String) : ℕ :=
  ((m.find? fun p => p.1 == key).map (·.2)).getD 0

def countsBump (m : List (String × ℕ)) (key : String) : List (String × ℕ) :=
  if m.any (fun p => p.1 == key) then
    m.map fun p => if p.1 == key then (p.1, p.2 + 1) else p
  else m ++ [(key, 1)]

/-- `canReproduce()` with stream accounting: the random draw happens only
when the energy test passes (JS `&&` short-circuits). -/
def canReproduceDraw (o : Organism) (r : Rng) (k : ℕ) : Bool × ℕ :=
  if o.energy ≥ o.reproductionEnergy then (decide (r k < o.reproductionRate), k + 1)
  else (false, k)

/-- `eat(prey)` with stream accounting: the success draw happens only
when neither party is dead. -/
def eatDraw (c : Consumer) (prey : Organism) (r : Rng) (k : ℕ) :
    Consumer × Organism × ℕ :=
  if c.base.isDead || prey.isDead then (c, prey, k)
  else
    let res := c.eat prey (r k)
    (res.1, res.2.1, k + 1)

/-- Mutable state of the organism-iteration pass inside `runCycle`. -/
structure PassSt where
  newOrganisms : Table
  deadOrganisms : List String
  deadCounts : List (String × ℕ)
  positionChanges : List (String × Position × Position)
  toAdd : List Organism
  grid : Grid
  k : ℕ
  j : ℕ
deriving Repr

/-- The eight-neighbour candidate list for consumer movement
(`dx` outer loop, `dy` inner loop, both −1..1, centre skipped). -/
def consumerValidMoves (pos : Position) (env : EnvConfig) : List Position :=
  ([-1, 0, 1] : List ℤ).foldl
    (fun acc dx =>
      ([-1, 0, 1] : List ℤ).foldl
        (fun (acc : List Position) dy =>
          if dx = 0 ∧ dy = 0 then acc
          else
            let newPos : Position := ⟨pos.x + dx, pos.y + dy⟩
            if 0 ≤ newPos.x ∧ newPos.x < env.width ∧
               0 ≤ newPos.y ∧ newPos.y < env.height then
              acc ++ [newPos]
            else acc)
        acc)
    []

/-- The weighted candidate list for decomposer movement: each valid
neighbour appears `deadAtTarget + 1` times. -/
def decomposerValidMoves (pos : Position) (env : EnvConfig)
    (deadCounts : List (String × ℕ)) : List Position :=
  ([-1, 0, 1] : List ℤ).foldl
    (fun acc dx =>
      ([-1, 0, 1] : List ℤ).foldl
        (fun (acc : List Position) dy =>
          if dx = 0 ∧ dy = 0 then acc
          else
            let newPos : Position := ⟨pos.x + dx, pos.y + dy⟩
            if 0 ≤ newPos.x ∧ newPos.x < env.width ∧
               0 ≤ newPos.y ∧ newPos.y < env.height then
              let deadAtTarget := countsGet deadCounts (posKey newPos)
              acc ++ (List.range (deadAtTarget + 1)).map fun _ => newPos
            else acc)
        acc)
    []

/-- Producer dispatch of the organism pass (lines 493–507). -/
def processProducer (envConfig : EnvConfig) (r : Rng) (names : ℕ → String)
    (st : PassSt) (id : String) (organism : OrgAttrs) (cell : Cell) : PassSt :=
  let producer := newProducer organism.toPAttrs ""
  let producer := producer.update envConfig cell.nutrientLevel cell.waterLevel
  let st := { st with newOrganisms := tableSet st.newOrganisms id producer.getAttributes }
  let cr := canReproduceDraw producer.base r st.k
  let st := { st with k := cr.2 }
  if cr.1 then
    let fp := st.grid.findAvailablePosition producer.base.position 2 r st.k
    let st := { st with k := fp.2 }
    match fp.1 with
    | some offspringPosition =>
        let rep :=
          producer.base.reproduce (r st.k) (r (st.k+1)) (r (st.k+2)) (r (st.k+3))
            (r (st.k+4)) (names st.j)
        let offspring := { rep.2 with position := offspringPosition }
        { st with toAdd := st.toAdd ++ [offspring], k := st.k + 5, j := st.j + 1 }
    | none => st
  else st

/-- Consumer dispatch of the organism pass (lines 508–598). -/
def processConsumer (envConfig : EnvConfig) (r : Rng) (names : ℕ → String)
    (st : PassSt) (id : String) (organism : OrgAttrs) : PassSt :=
  let consumer := newConsumer organism.toPAttrs ""
  let consumer := consumer.update envConfig
  -- 80% chance to move
  let mdraw := r st.k
  let st := { st with k := st.k + 1 }
  let moved : Consumer × PassSt :=
    if mdraw < 4/5 then
      let validMoves := consumerValidMoves consumer.base.position envConfig
      if validMoves.length > 0 then
        let newPos :=
          (validMoves.get? (randIndex (r st.k) validMoves.length)).getD
            consumer.base.position
        let oldPos := consumer.base.position
        let c2 := { consumer with base := consumer.base.move newPos }
        (c2, { st with k := st.k + 1,
                       positionChanges := st.positionChanges ++ [(id, oldPos, newPos)] })
      else (consumer, st)
    else (consumer, st)
  let consumer := moved.1
  let st := moved.2
  -- herbivores and omnivores can eat plants
  let ate1 : Consumer × PassSt :=
    if consumer.consumerType ≠ ConsumerType.Carnivore then
      let nearbyProducers :=
        (st.grid.getNearbyOrganisms consumer.base.position 1).filter fun oid =>
          match tableGet st.newOrganisms oid with
          | some t => t.otype == OrganismType.Producer && !t.isDead
          | none => false
      if nearbyProducers.length > 0 then
        let targetId :=
          (nearbyProducers.get? (randIndex (r st.k) nearbyProducers.length)).getD ""
        let st := { st with k := st.k + 1 }
        match tableGet st.newOrganisms targetId with
        | some target =>
            if consumer.canEat target.otype then
              let targetInstance := newProducer target.toPAttrs ""
              let er := eatDraw consumer targetInstance.base r st.k
              (er.1,
               { st with k := er.2.2,
                         newOrganisms :=
                           tableSet st.newOrganisms targetId
                             ({ targetInstance with base := er.2.1 }).getAttributes })
            else (consumer, st)
        | none => (consumer, st)
      else (consumer, st)
    else (consumer, st)
  let consumer := ate1.1
  let st := ate1.2
  -- carnivores and omnivores can eat consumers
  let ate2 : Consumer × PassSt :=
    if consumer.consumerType ≠ ConsumerType.Herbivore then
      let nearbyConsumers :=
        (st.grid.getNearbyOrganisms consumer.base.position 2).filter fun oid =>
          match tableGet st.newOrganisms oid with
          | some t =>
              t.otype == OrganismType.Consumer && t.id != consumer.base.id && !t.isDead
          | none => false
      if nearbyConsumers.length > 0 then
        let targetId :=
          (nearbyConsumers.get? (randIndex (r st.k) nearbyConsumers.length)).getD ""
        let st := { st with k := st.k + 1 }
        match tableGet st.newOrganisms targetId with
        | some target =>
            if consumer.canEat target.otype then
              let targetInstance := newConsumer target.toPAttrs ""
              let er := eatDraw consumer targetInstance.base r st.k
              (er.1,
               { st with k := er.2.2,
                         newOrganisms :=
                           tableSet st.newOrganisms targetId
                             ({ targetInstance with base := er.2.1 }).getAttributes })
            else (consumer, st)
        | none => (consumer, st)
      else (consumer, st)
    else (consumer, st)
  let consumer := ate2.1
  let st := ate2.2
  -- reproduction
  let cr := canReproduceDraw consumer.base r st.k
  let st := { st with k := cr.2 }
  let reproduced : Consumer × PassSt :=
    if cr.1 then
      let fp := st.grid.findAvailablePosition consumer.base.position 3 r st.k
      let st := { st with k := fp.2 }
      match fp.1 with
      | some offspringPosition =>
          let rep :=
            consumer.base.reproduce (r st.k) (r (st.k+1)) (r (st.k+2)) (r (st.k+3))
              (r (st.k+4)) (names st.j)
          let offspring := { rep.2 with position := offspringPosition }
          ({ consumer with base := rep.1 },
           { st with toAdd := st.toAdd ++ [offspring], k := st.k + 5, j := st.j + 1 })
      | none => (consumer, st)
    else (consumer, st)
  let consumer := reproduced.1
  let st := reproduced.2
  { st with newOrganisms := tableSet st.newOrganisms id consumer.getAttributes }

/-- Decomposer dispatch of the organism pass (lines 600–684). -/
def processDecomposer (envConfig : EnvConfig) (r : Rng) (names : ℕ → String)
    (st : PassSt) (id : String) (organism : OrgAttrs) (cell : Cell) : PassSt :=
  let decomposer := newDecomposer organism.toPAttrs ""
  let cellKey := posKey decomposer.base.position
  let deadCount := countsGet st.deadCounts cellKey
  let upd := decomposer.update envConfig (deadCount : ℚ)
  let decomposer := upd.1
  let nutrientsProduced := upd.2
  let st :=
    if nutrientsProduced > 0 then
      { st with grid := st.grid.addNutrients decomposer.base.position nutrientsProduced }
    else st
  -- 40% chance to move
  let mdraw := r st.k
  let st := { st with k := st.k + 1 }
  let moved : Decomposer × PassSt :=
    if mdraw < 2/5 then
      let validMoves :=
        decomposerValidMoves decomposer.base.position envConfig st.deadCounts
      if validMoves.length > 0 then
        let newPos :=
          (validMoves.get? (randIndex (r st.k) validMoves.length)).getD
            decomposer.base.position
        let oldPos := decomposer.base.position
        let d2 := { decomposer with base := decomposer.base.move newPos }
        (d2, { st with k := st.k + 1,
                       positionChanges := st.positionChanges ++ [(id, oldPos, newPos)] })
      else (decomposer, st)
    else (decomposer, st)
  let decomposer := moved.1
  let st := moved.2
  -- decomposers can consume dead organisms
  let dec : Decomposer × PassSt :=
    if deadCount > 0 then
      let cellOrganisms :=
        cell.organisms.filter fun oid =>
          match tableGet st.newOrganisms oid with
          | some t => t.isDead
          | none => false
      if cellOrganisms.length > 0 then
        let targetId :=
          (cellOrganisms.get? (randIndex (r st.k) cellOrganisms.length)).getD ""
        let st := { st with k := st.k + 1 }
        match tableGet st.newOrganisms targetId with
        | some target =>
            let dres := decomposer.decompose target
            let st :=
              { st with grid := st.grid.addNutrients dres.1.base.position dres.2 }
            let st :=
              if targetId ∈ st.deadOrganisms then st
              else { st with deadOrganisms := st.deadOrganisms ++ [targetId] }
            (dres.1, st)
        | none => (decomposer, st)
      else (decomposer, st)
    else (decomposer, st)
  let decomposer := dec.1
  let st := dec.2
  -- reproduction
  let cr := canReproduceDraw decomposer.base r st.k
  let st := { st with k := cr.2 }
  let reproduced : Decomposer × PassSt :=
    if cr.1 then
      let fp := st.grid.findAvailablePosition decomposer.base.position 2 r st.k
      let st := { st with k := fp.2 }
      match fp.1 with
      | some offspringPosition =>
          let rep :=
            decomposer.base.reproduce (r st.k) (r (st.k+1)) (r (st.k+2)) (r (st.k+3))
              (r (st.k+4)) (names st.j)
          let offspring := { rep.2 with position := offspringPosition }
          ({ decomposer with base := rep.1 },
           { st with toAdd := st.toAdd ++ [offspring], k := st.k + 5, j := st.j + 1 })
      | none => (decomposer, st)
    else (decomposer, st)
  let decomposer := reproduced.1
  let st := reproduced.2
  { st with newOrganisms := tableSet st.newOrganisms id decomposer.getAttributes }

/-- One entry of the organism-iteration pass: dead entries are queued
(and counted per cell) and skipped; a live entry whose cell does not
resolve is skipped; otherwise dispatch on kind. -/
def processEntry (envConfig : EnvConfig) (r : Rng) (names : ℕ → String)
    (st : PassSt) (entry : String × OrgAttrs) : PassSt :=
  let id := entry.1
  let organism := entry.2
  if organism.isDead then
    { st with deadOrganisms := st.deadOrganisms ++ [id],
              deadCounts := countsBump st.deadCounts (posKey organism.position) }
  else
    match st.grid.getCell organism.position with
    | none => st
    | some cell =>
        match organism.otype with
        | OrganismType.Producer => processProducer envConfig r names st id organism cell
        | OrganismType.Consumer => processConsumer envConfig r names st id organism
        | OrganismType.Decomposer => processDecomposer envConfig r names st id organism cell

/-- The aggregate world state advanced by `runCycle`: the Environment
and Grid refs plus the organism table and statistics series. -/
structure World where
  env : Environment
  grid : Grid
  organisms : Table
  statistics : Stats
  day : ℤ
  season : Season
  disturbance : Option Disturbance
deriving Repr

/-- One simulation cycle (`runCycle` of useSimulation.ts).  `autoRestart`
is the `autoRestartOnExtinction` policy flag of the caller; `logO` stands for
`Math.log`; `names` supplies the `uuidv4()` results for offspring;
`r`/`k` is the `Math.random()` stream and `j` the uuid counter.  Returns
the new world, the extinction signal and the advanced counters.  When
extinction triggers an auto-restart, the organism table and statistics
are left unchanged (the React state is not updated) while the already
mutated Environment and Grid refs are kept, exactly as in the source. -/
def applyActiveDisturbances (g : Grid) (ds : List Disturbance) : Grid :=
  ds.foldl
    (fun g d =>
      g.applyDisturbance d.affectedArea.startX d.affectedArea.startY
        d.affectedArea.endX d.affectedArea.endY d.dtype d.intensity)
    g

/-- Phase 3 of `runCycle`: apply all queued position changes to the Grid
and update the recorded position of each moved organism. -/
def applyPositionChanges (gt : Grid × Table)
    (pcs : List (String × Position × Position)) : Grid × Table :=
  pcs.foldl
    (fun (acc : Grid × Table) pc =>
      let g := (acc.1.moveOrganism pc.1 pc.2.1 pc.2.2).2
      let t :=
        match tableGet acc.2 pc.1 with
        | some a => tableSet acc.2 pc.1 { a with position := pc.2.2 }
        | none => acc.2
      (g, t))
    gt

/-- Phase 4 of `runCycle`: add all queued offspring to the table and the
Grid. -/
def applyOffspring (gt : Grid × Table) (toAdd : List Organism) : Grid × Table :=
  toAdd.foldl
    (fun (acc : Grid × Table) o =>
      ((acc.1.addOrganism o.getAttributes).2,
       tableSet acc.2 o.id o.getAttributes))
    gt

/-- Phase 5 of `runCycle`: remove all queued dead organisms from both
the table and the Grid. -/
def applyDeadRemoval (gt : Grid × Table) (deadOrganisms : List String) :
    Grid × Table :=
  deadOrganisms.foldl
    (fun (acc : Grid × Table) oid =>
      match tableGet acc.2 oid with
      | some a => ((acc.1.removeOrganism oid a.position).2, tableDelete acc.2 oid)
      | none => acc)
    gt

def producerCountOf (t : Table) : ℕ :=
  ((t.map (·.2)).filter fun o => o.otype == OrganismType.Producer).length

def herbivoreCountOf (t : Table) : ℕ :=
  ((t.map (·.2)).filter fun o =>
    o.otype == OrganismType.Consumer &&
      o.consumerTypeField == some ConsumerType.Herbivore).length

def carnivoreCountOf (t : Table) : ℕ :=
  ((t.map (·.2)).filter fun o =>
    o.otype == OrganismType.Consumer &&
      o.consumerTypeField == some ConsumerType.Carnivore).length

def decomposerCountOf (t : Table) : ℕ :=
  ((t.map (·.2)).filter fun o => o.otype == OrganismType.Decomposer).length

def totalEnergyOf (t : Table) : ℚ := sumQ ((t.map (·.2)).map (·.energy))

def totalNutrientsOf (g : Grid) : ℚ :=
  sumQ (g.cells.map fun row => sumQ (row.map (·.nutrientLevel)))

/-- Shannon biodiversity over species-label proportions; `logO` stands
for `Math.log`. -/
def biodiversityOf (t : Table) (logO : ℚ → ℚ) : ℚ :=
  let speciesCounts :=
    (t.map (·.2)).foldl (fun (m : List (String × ℕ)) o => countsBump m o.species) []
  let totalOrganisms : ℕ := speciesCounts.foldl (fun s p => s + p.2) 0
  speciesCounts.foldl
    (fun b p =>
      let proportion := (p.2 : ℚ) / (totalOrganisms : ℚ)
      b - proportion * logO proportion)
    0

/-- Phases 6 and 8 of `runCycle`: append one sample to every statistics
series and truncate each to the most recent 500 samples. -/
def statsPush (stats : Stats) (environmentConfig : EnvConfig)
    (newOrganisms : Table) (grid : Grid) (logO : ℚ → ℚ) : Stats :=
  let stabilityIndex := computeStabilityIndex stats.producers stats.herbivores
  let stats :=
    { stats with
      producers := stats.producers ++ [(producerCountOf newOrganisms : ℚ)]
      herbivores := stats.herbivores ++ [(herbivoreCountOf newOrganisms : ℚ)]
      carnivores := stats.carnivores ++ [(carnivoreCountOf newOrganisms : ℚ)]
      decomposers := stats.decomposers ++ [(decomposerCountOf newOrganisms : ℚ)]
      biodiversityIndex := stats.biodiversityIndex ++ [biodiversityOf newOrganisms logO]
      averageTemperature := stats.averageTemperature ++ [environmentConfig.temperature]
      averageRainfall := stats.averageRainfall ++ [environmentConfig.rainfall]
      totalEnergy := stats.totalEnergy ++ [totalEnergyOf newOrganisms]
      totalNutrients := stats.totalNutrients ++ [totalNutrientsOf grid]
      stabilityIndex := stats.stabilityIndex ++ [stabilityIndex] }
  if stats.producers.length > 500 then
    { producers := takeLast 500 stats.producers
      herbivores := takeLast 500 stats.herbivores
      carnivores := takeLast 500 stats.carnivores
      decomposers := takeLast 500 stats.decomposers
      biodiversityIndex := takeLast 500 stats.biodiversityIndex
      averageTemperature := takeLast 500 stats.averageTemperature
      averageRainfall := takeLast 500 stats.averageRainfall
      totalEnergy := takeLast 500 stats.totalEnergy
      totalNutrients := takeLast 500 stats.totalNutrients
      stabilityIndex := takeLast 500 stats.stabilityIndex }
  else stats

/-- One simulation cycle (`runCycle` of useSimulation.ts).  `autoRestart`
is the `autoRestartOnExtinction` policy flag of the caller; `logO` stands for
`Math.log`; `names` supplies the `uuidv4()` results for offspring;
`r`/`k` is the `Math.random()` stream and `j` the uuid counter.  Returns
the new world, the extinction signal and the advanced counters.  When
extinction triggers an auto-restart, the organism table and statistics
are left unchanged (the React state is not updated) while the already
mutated Environment and Grid refs are kept, exactly as in the source. -/
def runCycle (w : World) (autoRestart : Bool) (logO : ℚ → ℚ)
    (names : ℕ → String) (r : Rng) (k j : ℕ) : World × Bool × ℕ × ℕ :=
  let envStep := w.env.update r k
  let env := envStep.1
  let environmentConfig := env.getConfig
  let activeDisturbances := env.getActiveDisturbances
  let grid := applyActiveDisturbances (w.grid.updateEnvironment environmentConfig)
    activeDisturbances
  let st :=
    w.organisms.foldl (processEntry environmentConfig r names)
      ⟨w.organisms, [], [], [], [], grid, envStep.2, j⟩
  let afterDead :=
    applyDeadRemoval
      (applyOffspring (applyPositionChanges (st.grid, st.newOrganisms)
          st.positionChanges)
        st.toAdd)
      st.deadOrganisms
  let grid2 := afterDead.1
  let newOrganisms := afterDead.2
  let totalOrganisms :=
    producerCountOf newOrganisms + herbivoreCountOf newOrganisms +
      carnivoreCountOf newOrganisms + decomposerCountOf newOrganisms
  if autoRestart && totalOrganisms == 0 then
    ({ w with env := env, grid := grid2 }, true, st.k, st.j)
  else
    ({ env := env
       grid := grid2
       organisms := newOrganisms
       statistics := statsPush w.statistics environmentConfig newOrganisms grid2 logO
       day := environmentConfig.day
       season := environmentConfig.season
       disturbance := activeDisturbances.head? },
     false, st.k, st.j)

-- ---------------------------------------------------------------------------
-- models/Grid.ts: the randomized constructor (initializeGrid)
-- ---------------------------------------------------------------------------

/-- One cell of `initializeGrid`.  `sqrtO` stands for `Math.sqrt`; the
random draws (three per hill, plus one inside each hit hill, then noise,
nutrients, water, temperature, pollution) are threaded through `k`. -/
def initializeGridCell (width height : ℤ) (env : EnvConfig) (sqrtO : ℚ → ℚ)
    (r : Rng) (x y : ℤ) (k : ℕ) : Cell × ℕ :=
  let wQ : ℚ := (width : ℚ)
  let hQ : ℚ := (height : ℚ)
  let xQ : ℚ := (x : ℚ)
  let yQ : ℚ := (y : ℚ)
  let distanceFromCenter := sqrtO ((xQ - wQ/2)^2 + (yQ - hQ/2)^2)
  let normalizedDistance := distanceFromCenter / sqrtO ((wQ/2)^2 + (hQ/2)^2)
  let cellHeight : ℚ := 0
  let centerX := wQ / 2
  let centerY := hQ / 2
  let islandRadius := min wQ hQ * (1/4)
  let distanceFromIslandCenter := sqrtO ((xQ - centerX)^2 + (yQ - centerY)^2)
  let cellHeight :=
    if distanceFromIslandCenter < islandRadius then
      max cellHeight ((1 - distanceFromIslandCenter / islandRadius) * (5/2))
    else cellHeight
  let hills :=
    (List.range 3).foldl
      (fun (acc : ℚ × ℕ) _ =>
        let hillX := wQ * (1/5) + r acc.2 * wQ * (3/5)
        let hillY := hQ * (1/5) + r (acc.2+1) * hQ * (3/5)
        let hillRadius := 3 + r (acc.2+2) * 5
        let distanceFromHill := sqrtO ((xQ - hillX)^2 + (yQ - hillY)^2)
        if distanceFromHill < hillRadius then
          (max acc.1
            ((1 - distanceFromHill / hillRadius) * (4/5 + r (acc.2+3) * (6/5))),
           acc.2 + 4)
        else (acc.1, acc.2 + 3))
      (cellHeight, k)
  let cellHeight := hills.1
  let k := hills.2
  let cellHeight := cellHeight + (r k - 1/2) * (3/10)
  let cellHeight := max 0 cellHeight
  let baseNutrients := 50 + r (k+1) * 50
  let elevationNutrientPenalty := cellHeight * 15
  let nutrientVariation := 1 - normalizedDistance * (3/10)
  let baseWater := env.rainfall * (4/5) + r (k+2) * 20
  let elevationWaterPenalty := cellHeight * 25
  let waterVariation := 1 - normalizedDistance * (1/5)
  let finalNutrients :=
    max 10 ((baseNutrients - elevationNutrientPenalty) * nutrientVariation)
  let finalWater := max 5 ((baseWater - elevationWaterPenalty) * waterVariation)
  ({ x := x
     y := y
     height := cellHeight
     nutrientLevel := finalNutrients
     waterLevel := finalWater
     organisms := []
     temperature := env.temperature + (r (k+3) * 4 - 2)
     pollutionLevel := env.pollutionLevel * (4/5 + r (k+4) * (2/5)) }, k + 5)

/-- The `Grid` constructor: `initializeGrid` builds the rows in row-major
order (no rows when the dimensions are non-positive). -/
def newGrid (width height : ℤ) (environmentConfig : EnvConfig) (sqrtO : ℚ → ℚ)
    (r : Rng) (k : ℕ) : Grid × ℕ :=
  let rows :=
    (List.range height.toNat).foldl
      (fun (acc : List (List Cell) × ℕ) y =>
        let row :=
          (List.range width.toNat).foldl
            (fun (acc2 : List Cell × ℕ) x =>
              let ck :=
                initializeGridCell width height environmentConfig sqrtO r
                  (x : ℤ) (y : ℤ) acc2.2
              (acc2.1 ++ [ck.1], ck.2))
            ([], acc.2)
        (acc.1 ++ [row.1], row.2))
      ([], k)
  ({ width := width, height := height, cells := rows.1 }, rows.2)

-- ---------------------------------------------------------------------------
-- hooks/useSimulation.ts: initialize, saveSimulation, loadSimulation
-- ---------------------------------------------------------------------------

structure SimState where
  day : ℤ
  season : Season
  environment : EnvConfig
  grid : List (List Cell)
  organisms : Table
  disturbance : Option Disturbance
  statistics : Stats
  paused : Bool
  cyclesPerSecond : ℚ
deriving Repr

structure SavedSimulation where
  name : String
  date : String
  state : SimState
  config : SimConfig
deriving Repr

/-- Result of `initialize`: the Environment and Grid refs, the organism
table and the published state. -/
structure InitResult where
  environment : Environment
  grid : Grid
  organisms : Table
  state : SimState
deriving Repr

/-- One producer of the `initialize` population loop (9 draws plus a
fresh uuid). -/
def initializeProducer (cfg : SimConfig) (r : Rng) (k : ℕ) (freshId : String) :
    Producer × ℕ :=
  let position : Position :=
    ⟨Rat.floor (r k * (cfg.gridWidth : ℚ)), Rat.floor (r (k+1) * (cfg.gridHeight : ℚ))⟩
  (newProducer
    { PAttrs.empty with
      position := some position
      energy := some (120 + r (k+2) * 40)
      size := some (3/5 + r (k+3) * (6/5))
      maxAge := some ((90 : ℚ) + (Rat.floor (r (k+4) * 30) : ℤ))
      reproductionRate := some (3/25 + r (k+5) * (3/20))
      reproductionEnergy := some (110 + r (k+6) * 50)
      species := some "Basic Plant"
      growthRate := some (3/50 + r (k+7) * (2/25))
      photosynthesisRate := some (3/20 + r (k+8) * (3/20)) }
    freshId, k + 9)

/-- One herbivore of the `initialize` population loop (10 draws). -/
def initializeHerbivore (cfg : SimConfig) (r : Rng) (k : ℕ) (freshId : String) :
    Consumer × ℕ :=
  let position : Position :=
    ⟨Rat.floor (r k * (cfg.gridWidth : ℚ)), Rat.floor (r (k+1) * (cfg.gridHeight : ℚ))⟩
  (newConsumer
    { PAttrs.empty with
      position := some position
      energy := some (180 + r (k+2) * 40)
      size := some (1 + r (k+3) * (4/5))
      maxAge := some ((70 : ℚ) + (Rat.floor (r (k+4) * 25) : ℤ))
      reproductionRate := some (3/50 + r (k+5) * (3/25))
      reproductionEnergy := some (160 + r (k+6) * 30)
      species := some "Herbivore"
      consumerType := some ConsumerType.Herbivore
      huntingEfficiency := some (1/2 + r (k+7) * (1/4))
      metabolismRate := some (3/50 + r (k+8) * (3/100))
      movementCost := some (3/5 + r (k+9) * (3/10))
      diet := some ["Basic Plant"] }
    freshId, k + 10)

/-- One carnivore of the `initialize` population loop (10 draws). -/
def initializeCarnivore (cfg : SimConfig) (r : Rng) (k : ℕ) (freshId : String) :
    Consumer × ℕ :=
  let position : Position :=
    ⟨Rat.floor (r k * (cfg.gridWidth : ℚ)), Rat.floor (r (k+1) * (cfg.gridHeight : ℚ))⟩
  (newConsumer
    { PAttrs.empty with
      position := some position
      energy := some (220 + r (k+2) * 80)
      size := some (9/5 + r (k+3) * (3/2))
      maxAge := some ((80 : ℚ) + (Rat.floor (r (k+4) * 30) : ℤ))
      reproductionRate := some (1/25 + r (k+5) * (3/50))
      reproductionEnergy := some (220 + r (k+6) * 40)
      species := some "Carnivore"
      consumerType := some ConsumerType.Carnivore
      huntingEfficiency := some (3/5 + r (k+7) * (3/10))
      metabolismRate := some (2/25 + r (k+8) * (1/25))
      movementCost := some (1 + r (k+9) * (2/5))
      diet := some ["Herbivore"] }
    freshId, k + 10)

/-- One decomposer of the `initialize` population loop (10 draws). -/
def initializeDecomposer (cfg : SimConfig) (r : Rng) (k : ℕ) (freshId : String) :
    Decomposer × ℕ :=
  let position : Position :=
    ⟨Rat.floor (r k * (cfg.gridWidth : ℚ)), Rat.floor (r (k+1) * (cfg.gridHeight : ℚ))⟩
  (newDecomposer
    { PAttrs.empty with
      position := some position
      energy := some (100 + r (k+2) * 30)
      size := some (2/5 + r (k+3) * (3/5))
      maxAge := some ((75 : ℚ) + (Rat.floor (r (k+4) * 15) : ℤ))
      reproductionRate := some (1/4 + r (k+5) * (3/20))
      reproductionEnergy := some (90 + r (k+6) * 40)
      species := some "Decomposer"
      decompositionRate := some (1/4 + r (k+7) * (1/4))
      nutrientProductionRate := some (3/10 + r (k+8) * (1/5))
      movementCost := some (1/5 + r (k+9) * (1/5)) }
    freshId, k + 10)

/-- `initialize(config)` of useSimulation.ts: builds the Environment,
the (randomized) Grid, and the four initial populations, then publishes
the fresh state.  It performs no validation whatsoever. -/
def initializeSimulation (configToUse : SimConfig) (sqrtO : ℚ → ℚ) (r : Rng) (k : ℕ)
    (names : ℕ → String) : InitResult :=
  let environment :=
    newEnvironment
      { PEnvConfig.empty with
        temperature := some configToUse.initialTemperature
        rainfall := some configToUse.initialRainfall }
      (some configToUse)
  let gridStep :=
    newGrid configToUse.gridWidth configToUse.gridHeight environment.getConfig
      sqrtO r k
  let afterProducers :=
    (List.range configToUse.initialProducers.toNat).foldl
      (fun (acc : Grid × Table × ℕ × ℕ) _ =>
        let pr := initializeProducer configToUse r acc.2.2.1 (names acc.2.2.2)
        let attrs := pr.1.getAttributes
        ((acc.1.addOrganism attrs).2, tableSet acc.2.1 attrs.id attrs, pr.2,
         acc.2.2.2 + 1))
      (gridStep.1, [], gridStep.2, 0)
  let afterHerbivores :=
    (List.range configToUse.initialHerbivores.toNat).foldl
      (fun (acc : Grid × Table × ℕ × ℕ) _ =>
        let pr := initializeHerbivore configToUse r acc.2.2.1 (names acc.2.2.2)
        let attrs := pr.1.getAttributes
        ((acc.1.addOrganism attrs).2, tableSet acc.2.1 attrs.id attrs, pr.2,
         acc.2.2.2 + 1))
      afterProducers
  let afterCarnivores :=
    (List.range configToUse.initialCarnivores.toNat).foldl
      (fun (acc : Grid × Table × ℕ × ℕ) _ =>
        let pr := initializeCarnivore configToUse r acc.2.2.1 (names acc.2.2.2)
        let attrs := pr.1.getAttributes
        ((acc.1.addOrganism attrs).2, tableSet acc.2.1 attrs.id attrs, pr.2,
         acc.2.2.2 + 1))
      afterHerbivores
  let afterDecomposers :=
    (List.range configToUse.initialDecomposers.toNat).foldl
      (fun (acc : Grid × Table × ℕ × ℕ) _ =>
        let pr := initializeDecomposer configToUse r acc.2.2.1 (names acc.2.2.2)
        let attrs := pr.1.getAttributes
        ((acc.1.addOrganism attrs).2, tableSet acc.2.1 attrs.id attrs, pr.2,
         acc.2.2.2 + 1))
      afterCarnivores
  let grid := afterDecomposers.1
  let organisms := afterDecomposers.2.1
  { environment := environment
    grid := grid
    organisms := organisms
    state :=
      { day := 0
        season := Season.Spring
        environment := environment.getConfig
        grid := grid.cells
        organisms := organisms
        disturbance := none
        statistics := Stats.empty
        paused := true
        cyclesPerSecond := configToUse.simulationSpeed } }

/-- `saveSimulation(name)`: a shallow copy of the current published
state and config. -/
def saveSimulation (state : SimState) (config : SimConfig)
    (name date : String) : SavedSimulation :=
  { name := name, date := date, state := state, config := config }

/-- Result of `loadSimulation`: the rebuilt Environment and Grid refs
and the restored published state/config. -/
structure LoadResult where
  environment : Environment
  grid : Grid
  state : SimState
  config : SimConfig
deriving Repr

/-- `loadSimulation(savedSimulation)`: rebuilds the Environment from the
saved environment config (through the `||` fallbacks of the constructor, with
`day = 0` and an empty disturbance list), rebuilds the Grid through the
randomized constructor, re-adds the saved organisms to it, and publishes
the saved state and config unchanged. -/
def loadSimulation (savedSimulation : SavedSimulation) (sqrtO : ℚ → ℚ)
    (r : Rng) (k : ℕ) : LoadResult :=
  let environment :=
    newEnvironment savedSimulation.state.environment.toPartial
      (some savedSimulation.config)
  let gridStep :=
    newGrid savedSimulation.state.environment.width
      savedSimulation.state.environment.height environment.getConfig sqrtO r k
  let grid :=
    savedSimulation.state.organisms.foldl
      (fun (g : Grid) p => (g.addOrganism p.2).2) gridStep.1
  { environment := environment
    grid := grid
    state := savedSimulation.state
    config := savedSimulation.config }

-- ---------------------------------------------------------------------------
-- Claim-specific definitions: spec-side formulas and concrete instances
-- ---------------------------------------------------------------------------

/-- Iterated `Environment.update`, threading the random stream index. -/
def envIterate (r : Rng) (ek : Environment × ℕ) : ℕ → Environment × ℕ
  | 0 => ek
  | n + 1 => (envIterate r ek n).1.update r (envIterate r ek n).2

/-- The stability-index formula exactly as the claim states it: 1.0 when
fewer than 10 samples exist, otherwise
`max(0, 1 − (producerVariation + herbivoreVariation)/4)` where each
variation is the MEAN absolute deviation of the last 10 samples divided
by their mean (herbivore mean guarded against zero). -/
def stabilityClaimed (producers herbivores : List ℚ) : ℚ :=
  if producers.length < 10 then 1
  else
    let recentProducers := takeLast 10 producers
    let avgProducers := sumQ recentProducers / 10
    let variationProducers :=
      (sumQ (recentProducers.map fun v => |v - avgProducers|) / 10) / avgProducers
    let recentHerbivores := takeLast 10 herbivores
    let avgHerbivores := sumQ recentHerbivores / 10
    let variationHerbivores :=
      if avgHerbivores > 0 then
        (sumQ (recentHerbivores.map fun v => |v - avgHerbivores|) / 10) / avgHerbivores
      else 0
    max 0 (1 - (variationProducers + variationHerbivores) / 4)

/-- The amended stability-index statement: 1.0 when AT MOST 10 samples
exist; otherwise `max(0, 1 − (pv + hv)/4)` where each variation is the
SUM of absolute deviations of the last 10 samples divided by their mean
(ten times the mean absolute deviation over the mean), the herbivore
mean guarded against zero. -/
def stabilityAmendedSpec (producers herbivores : List ℚ) : ℚ :=
  if producers.length ≤ 10 then 1
  else
    let recentProducers := takeLast 10 producers
    let avgProducers := sumQ recentProducers / 10
    let variationProducers :=
      sumQ (recentProducers.map fun v => |v - avgProducers|) / avgProducers
    let recentHerbivores := takeLast 10 herbivores
    let avgHerbivores := sumQ recentHerbivores / 10
    let variationHerbivores :=
      if avgHerbivores > 0 then
        sumQ (recentHerbivores.map fun v => |v - avgHerbivores|) / avgHerbivores
      else 0
    max 0 (1 - (variationProducers + variationHerbivores) / 4)

/-- The population series used to refute the claimed stability formula:
exactly 10 producer samples alternating 10 and 30, herbivores constant. -/
def psC1 : List ℚ := [10, 30, 10, 30, 10, 30, 10, 30, 10, 30]

def hsC1 : List ℚ := [5, 5, 5, 5, 5, 5, 5, 5, 5, 5]

/-- A concrete producer for the growth-cost claim: growthRate 1/10,
photosynthesisRate 1/4, energy 120, size 1, maxAge 10. -/
def p3 : Producer :=
  newProducer
    { PAttrs.empty with
      position := some ⟨0, 0⟩
      energy := some 120
      size := some 1
      maxAge := some 10
      growthRate := some (1/10)
      photosynthesisRate := some (1/4) } "p"

/-- A maximally favourable environment: temperature 25, full sunlight,
no pollution, seasonal factor 1. -/
def envC3 : EnvConfig :=
  { temperature := 25, rainfall := 30, seasonalFactor := 1, nutrientLevel := 50,
    sunlightIntensity := 100, width := 1, height := 1, pollutionLevel := 0,
    season := Season.Spring, day := 0 }

/-- The amended growth behaviour of `Producer.update` for a producer
that survives the base update: growth is gated on the post-gain energy
and the resource factor, and costs `growthRate × 8` energy. -/
def producerGrowthProp (p : Producer) (env : EnvConfig) (n w : ℚ) : Prop :=
  let resourceFactor := min (n / 100) (w / 100)
  let environmentFactor :=
    (env.sunlightIntensity / 100) * Producer.getTemperatureFactor env.temperature *
      (1 - env.pollutionLevel / 100) * Producer.getSeasonalFactor env.seasonalFactor
  let energyAfterGain :=
    p.base.energy + p.photosynthesisRate * environmentFactor * resourceFactor * 12
  (energyAfterGain > 110 ∧ resourceFactor > 2/5 →
      (p.update env n w).base.size = p.base.size + p.growthRate * resourceFactor ∧
      (p.update env n w).base.energy = energyAfterGain - p.growthRate * 8) ∧
  (¬(energyAfterGain > 110 ∧ resourceFactor > 2/5) →
      (p.update env n w).base.size = p.base.size ∧
      (p.update env n w).base.energy = energyAfterGain)

/-- The energy-conservation statement for `reproduce()`: the parent ends
at half its pre-call energy, the offspring receives the other half, and
species and kind are inherited. -/
def reproduceSplitProp (o : Organism) (r1 r2 r3 r4 r5 : ℚ) (freshId : String) : Prop :=
  (o.reproduce r1 r2 r3 r4 r5 freshId).1.energy = o.energy / 2 ∧
  (o.reproduce r1 r2 r3 r4 r5 freshId).2.energy = o.energy / 2 ∧
  (o.reproduce r1 r2 r3 r4 r5 freshId).2.species = o.species ∧
  (o.reproduce r1 r2 r3 r4 r5 freshId).2.otype = o.otype ∧
  (o.reproduce r1 r2 r3 r4 r5 freshId).1.energy +
    (o.reproduce r1 r2 r3 r4 r5 freshId).2.energy = o.energy

/-- A concrete organism for the reproduction witness. -/
def wOrg : Organism := newOrganism { PAttrs.empty with energy := some 100 } "o"

/-- The full behaviour of `Consumer.eat` as the claim states it:
dead parties make it a no-op returning 0; otherwise the hunt succeeds
exactly when the draw is below
`huntingEfficiency / (prey.size/self.size + 0.3)`, transferring 80% of
the prey energy on success and costing 1.5 × movementCost on failure. -/
def consumerEatProp (c : Consumer) (prey : Organism) (rv : ℚ) : Prop :=
  ((c.base.isDead = true ∨ prey.isDead = true) → c.eat prey rv = (c, prey, 0)) ∧
  (c.base.isDead = false → prey.isDead = false →
    ((rv < c.huntingEfficiency / (prey.size / c.base.size + 3/10) →
        (c.eat prey rv).1.base.energy = c.base.energy + prey.energy * (4/5) ∧
        (c.eat prey rv).2.1.isDead = true ∧
        (c.eat prey rv).2.2 = prey.energy * (4/5)) ∧
     (¬ rv < c.huntingEfficiency / (prey.size / c.base.size + 3/10) →
        (c.eat prey rv).1.base.energy = c.base.energy - c.base.movementCost * (3/2) ∧
        (c.eat prey rv).2.1 = prey ∧
        (c.eat prey rv).2.2 = 0)))

/-- A concrete consumer and prey for the eat witness. -/
def wCons : Consumer :=
  newConsumer
    { PAttrs.empty with
      energy := some 50
      size := some 2
      huntingEfficiency := some (1/2) } "c"

def wPrey : Organism :=
  newOrganism { PAttrs.empty with energy := some 10, size := some 1 } "q"

/-- Atomic failure of `moveOrganism`: failure result and no mutation of
any cell. -/
def moveAtomicProp (g : Grid) (organismId : String) (oldP newP : Position) : Prop :=
  g.moveOrganism organismId oldP newP = (false, g) ∧
  ∀ p : Position, (g.moveOrganism organismId oldP newP).2.getCell p = g.getCell p

/-- A 1×1 grid holding one organism, for the move-atomicity witness. -/
def g8 : Grid :=
  { width := 1, height := 1,
    cells := [[{ x := 0, y := 0, height := 0, nutrientLevel := 50, waterLevel := 50,
                 organisms := ["x"], temperature := 25, pollutionLevel := 10 }]] }

/-- An active disturbance recorded in a snapshot for the round-trip
claim: a Fire two days into its five-day duration. -/
def c2Disturbance : Disturbance :=
  { dtype := DisturbanceType.Fire, intensity := 1, duration := 5,
    affectedArea := { startX := 0, startY := 0, endX := 1, endY := 1 },
    current := 2, active := true }

def c2EnvCfg : EnvConfig :=
  { temperature := 20, rainfall := 50, seasonalFactor := 1, nutrientLevel := 50,
    sunlightIntensity := 80, width := 2, height := 2, pollutionLevel := 10,
    season := Season.Summer, day := 5 }

/-- A snapshot taken on day 5 with one active disturbance. -/
def c2State : SimState :=
  { day := 5, season := Season.Summer, environment := c2EnvCfg, grid := [],
    organisms := [], disturbance := some c2Disturbance,
    statistics := Stats.empty, paused := false, cyclesPerSecond := 1 }

def c2Config : SimConfig :=
  { gridWidth := 2, gridHeight := 2, initialProducers := 0,
    initialHerbivores := 0, initialCarnivores := 0, initialDecomposers := 0,
    simulationSpeed := 1, initialTemperature := 20, initialRainfall := 50,
    enableEvolution := true, enableDisturbances := false }

def c2Saved : SavedSimulation := saveSimulation c2State c2Config "save" "date"

/-- A configuration with non-positive grid dimensions and a negative
organism count, which `initialize` is claimed to reject. -/
def cfgBad : SimConfig :=
  { gridWidth := 0, gridHeight := -3, initialProducers := -5,
    initialHerbivores := 0, initialCarnivores := 0, initialDecomposers := 0,
    simulationSpeed := 1, initialTemperature := 25, initialRainfall := 30,
    enableEvolution := true, enableDisturbances := false }

/-- The registered Fire disturbance after aging `n` ticks. -/
def fireDist (i : ℚ) (d : ℕ) (area : Area) (n : ℕ) : Disturbance :=
  { dtype := DisturbanceType.Fire, intensity := i, duration := (d : ℚ),
    affectedArea := area, current := (n : ℚ), active := true }

/-- The full lifecycle the claim describes for
`addDisturbance(Fire, i, d, area)`: the immediate temperature shift of
exactly `5 × intensity` before reclamping, presence among the active
disturbances with elapsed age `n` after each of the first `d − 1`
subsequent updates, and absence after the `d`-th. -/
def fireLifecycleProp (e : Environment) (area : Area) (i : ℚ) (d : ℕ)
    (r : Rng) : Prop :=
  ((e.addDisturbance DisturbanceType.Fire i (d : ℚ) area).2.config.temperature =
      max (-10) (min 45 (e.config.temperature + 5 * i))) ∧
  (∀ n, 1 ≤ n → n < d →
    ∃ D ∈ (envIterate r
        ((e.addDisturbance DisturbanceType.Fire i (d : ℚ) area).2, 0) n).1.getActiveDisturbances,
      D.dtype = DisturbanceType.Fire ∧ D.intensity = i ∧
      D.duration = (d : ℚ) ∧ D.current = (n : ℚ)) ∧
  (∀ D ∈ (envIterate r
      ((e.addDisturbance DisturbanceType.Fire i (d : ℚ) area).2, 0) d).1.getActiveDisturbances,
    D.intensity ≠ i)

/-- A concrete environment with no disturbances, for the lifecycle
witness. -/
def e7 : Environment :=
  { config :=
      { temperature := 25, rainfall := 50, seasonalFactor := 1, nutrientLevel := 50,
        sunlightIntensity := 80, width := 10, height := 10, pollutionLevel := 10,
        season := Season.Spring, day := 0 }
    day := 0
    disturbances := [] }

def areaW : Area := { startX := 2, startY := 2, endX := 7, endY := 7 }

def rW : Rng := fun _ => 1/2

/-- The single producer of the deferred-removal scenario: maxAge 1, so
it dies of old age during its first update. -/
def c6Producer : OrgAttrs :=
  (newProducer
    { PAttrs.empty with
      position := some ⟨0, 0⟩
      energy := some 120
      size := some 1
      maxAge := some 1
      reproductionEnergy := some 150 } "p1").getAttributes

def c6Env : Environment :=
  { config :=
      { temperature := 25, rainfall := 30, seasonalFactor := 1, nutrientLevel := 50,
        sunlightIntensity := 80, width := 1, height := 1, pollutionLevel := 10,
        season := Season.Spring, day := 0 }
    day := 0
    disturbances := [] }

def c6Cell : Cell :=
  { x := 0, y := 0, height := 0, nutrientLevel := 50, waterLevel := 50,
    organisms := ["p1"], temperature := 25, pollutionLevel := 10 }

/-- A 1×1 world holding the single producer at (0,0). -/
def c6World : World :=
  { env := c6Env
    grid := { width := 1, height := 1, cells := [[c6Cell]] }
    organisms := [("p1", c6Producer)]
    statistics := Stats.empty
    day := 0
    season := Season.Spring
    disturbance := none }

def c6Rng : Rng := fun _ => 1/2

def c6Names : ℕ → String := fun n => "off" ++ toString n

def c6Run1 : World × Bool × ℕ × ℕ :=
  runCycle c6World false (fun _ => 0) c6Names c6Rng 0 0

/-- The world at the end of the step in which the producer dies. -/
def c6Step1 : World := c6Run1.1

/-- The world one step later. -/
def c6Step2 : World :=
  (runCycle c6Step1 false (fun _ => 0) c6Names c6Rng c6Run1.2.2.1 c6Run1.2.2.2).1

-- ---------------------------------------------------------------------------
-- Theorems
-- ---------------------------------------------------------------------------

/-- The last 10 elements of a series longer than 10 number exactly 10. -/
theorem takeLast_length_of_le {n : ℕ} (xs : List ℚ) (h : n ≤ xs.length) :
    (takeLast n xs).length = n := by
  simp only [takeLast, List.length_drop]
  omega

/-- C10 (counter to the claim): the `Producer` constructor passes
`movementCost: 0` down, but the base constructor applies `0 || 1`, so
every Producer ends up with movementCost 1 — and `move` therefore
deducts 1 energy, for every attribute record whatsoever. -/
theorem producer_movementCost_is_one :
    ∀ (a : PAttrs) (freshId : String) (p : Position),
      (newProducer a freshId).base.movementCost = 1 ∧
      ((newProducer a freshId).base.move p).energy =
        (newProducer a freshId).base.energy - 1 := by
  intro a freshId p
  constructor
  · simp [newProducer, newOrganism, jsOrO, jsOr]
  · simp [Organism.move, newProducer, newOrganism, jsOrO, jsOr]

/-- C3 counterexample: with growthRate 1/10 in a maximally favourable
environment, the producer grows and its energy lands at 122.2
(= 123 − growthRate × 8), not at 115 (= 123 − 8) as the claim about a
fixed cost of 8 would require. -/
theorem producer_growth_claim_counterexample :
    (p3.update envC3 100 100).base.energy = 611/5 ∧
    (p3.update envC3 100 100).base.size = 11/10 ∧
    ¬ ((611 : ℚ)/5 = 123 - 8) := by
  refine ⟨?_, ?_, by norm_num⟩ <;>
    norm_num [p3, envC3, Producer.update, Organism.update, newProducer, newOrganism,
      jsOrO, jsOr, jsOrSO, jsOrS, PAttrs.empty, Producer.getTemperatureFactor,
      Producer.getSeasonalFactor]

/-- C3 (amended): for a living producer that survives the base update,
if the post-photosynthesis energy exceeds 110 and the resource factor
exceeds 0.4 then its size grows by `growthRate × resourceFactor` and an
energy cost of `growthRate × 8` (not a fixed 8) is deducted; otherwise
size and energy are untouched beyond the photosynthesis gain. -/
theorem producer_growth_amended (p : Producer) (env : EnvConfig) (n w : ℚ)
    (halive : p.base.isDead = false) (hage : p.base.age + 1 < p.base.maxAge)
    (hE : 0 < p.base.energy) : producerGrowthProp p env n w := by
  have h1 : ¬(p.base.age + 1 ≥ p.base.maxAge) := not_le.mpr hage
  have h2 : ¬(p.base.energy ≤ 0) := not_le.mpr hE
  have hb : p.base.update = { p.base with age := p.base.age + 1 } := by
    simp [Organism.update, h1, h2]
  constructor
  · intro hc
    simp only [Producer.update, hb, halive, if_false, Bool.false_eq_true]
    rw [if_pos hc]
    exact ⟨rfl, rfl⟩
  · intro hc
    simp only [Producer.update, hb, halive, if_false, Bool.false_eq_true]
    rw [if_neg hc]
    exact ⟨rfl, rfl⟩

/-- C3 witness: the amended growth law instantiated at the concrete
producer `p3` in the favourable environment. -/
theorem producer_growth_amended_witness :
    p3.base.isDead = false ∧ p3.base.age + 1 < p3.base.maxAge ∧
    0 < p3.base.energy ∧ producerGrowthProp p3 envC3 100 100 := by
  refine ⟨?_, ?_, ?_, producer_growth_amended p3 envC3 100 100 ?_ ?_ ?_⟩ <;>
    norm_num [p3, newProducer, newOrganism, jsOrO, jsOr, jsOrSO, jsOrS, PAttrs.empty]

/-- C4: `reproduce()` leaves the parent at exactly half of its pre-call
energy, gives the offspring the other half, preserves species and kind,
and so conserves energy across the split, for every organism with
positive energy and a nonempty species label (the constructor never
produces an empty label) and all jitter draws. -/
theorem reproduce_energy_split (o : Organism) (r1 r2 r3 r4 r5 : ℚ)
    (freshId : String) (hE : 0 < o.energy) (hs : o.species ≠ "") :
    reproduceSplitProp o r1 r2 r3 r4 r5 freshId := by
  have hne : o.energy ≠ 0 := ne_of_gt hE
  refine ⟨?_, ?_, ?_, ?_, ?_⟩ <;>
    simp [reproduceSplitProp, Organism.reproduce, newOrganism, jsOrO, jsOr,
      jsOrSO, jsOrS, PAttrs.empty, hne, hs] <;> ring

/-- C4 witness: the split law at a concrete organism with energy 100. -/
theorem reproduce_energy_split_witness :
    0 < wOrg.energy ∧ wOrg.species ≠ "" ∧
    reproduceSplitProp wOrg (1/2) (1/2) (1/2) (1/2) (1/2) "kid" := by
  have h1 : 0 < wOrg.energy := by
    norm_num [wOrg, newOrganism, jsOrO, jsOr, PAttrs.empty]
  have h2 : wOrg.species ≠ "" := by
    simp only [wOrg, newOrganism, jsOrSO, jsOrS, PAttrs.empty]
    decide
  exact ⟨h1, h2, reproduce_energy_split wOrg (1/2) (1/2) (1/2) (1/2) (1/2) "kid" h1 h2⟩

/-- C5: `eat(prey)` is a no-op returning 0 when either party is dead;
otherwise the hunt succeeds exactly when the draw is below
`huntingEfficiency / (prey.size/self.size + 0.3)`, on success the
consumer gains 80% of the prey energy, the prey dies and the gain is
returned, and on failure the consumer pays 1.5 × movementCost and 0 is
returned.  (The positive-size hypothesis keeps the rational embedding in
the region where it agrees with JS float division.) -/
theorem consumer_eat_spec (c : Consumer) (prey : Organism) (rv : ℚ)
    (hsz : 0 < c.base.size) : consumerEatProp c prey rv := by
  refine ⟨?_, ?_⟩
  · intro h
    rcases h with h | h <;> simp [Consumer.eat, h]
  · intro hc hp
    constructor
    · intro hwin
      simp [Consumer.eat, hc, hp, hwin, Organism.die]
    · intro hlose
      simp [Consumer.eat, hc, hp, hlose]

/-- C5 witness: the eat law at a concrete consumer of size 2. -/
theorem consumer_eat_spec_witness :
    0 < wCons.base.size ∧ consumerEatProp wCons wPrey (1/2) := by
  refine ⟨?_, consumer_eat_spec wCons wPrey (1/2) ?_⟩ <;>
    norm_num [wCons, newConsumer, newOrganism, jsOrO, jsOr, jsOrSO, jsOrS,
      PAttrs.empty]

/-- C8: `moveOrganism` with an out-of-bounds destination returns failure
and performs no mutation: the grid value is returned unchanged, so every
cell is exactly as it was. -/
theorem moveOrganism_oob_atomic (g : Grid) (organismId : String)
    (oldP newP : Position)
    (h : newP.x < 0 ∨ newP.x ≥ g.width ∨ newP.y < 0 ∨ newP.y ≥ g.height) :
    moveAtomicProp g organismId oldP newP := by
  have : g.moveOrganism organismId oldP newP = (false, g) := by
    simp only [Grid.moveOrganism]
    rw [if_pos h]
  exact ⟨this, fun p => by rw [this]⟩

/-- C8 witness: moving the only organism of a 1×1 grid to column 2 fails
atomically. -/
theorem moveOrganism_oob_atomic_witness :
    ((2 : ℤ) < 0 ∨ (2 : ℤ) ≥ g8.width ∨ (0 : ℤ) < 0 ∨ (0 : ℤ) ≥ g8.height) ∧
    moveAtomicProp g8 "x" ⟨0, 0⟩ ⟨2, 0⟩ := by
  refine ⟨?_, moveOrganism_oob_atomic g8 "x" ⟨0, 0⟩ ⟨2, 0⟩ ?_⟩ <;>
  · right
    left
    norm_num [g8]

/-- C1 counterexample: with exactly 10 recorded samples (producers
alternating 10/30, herbivores constant 5) the code appends 1.0 — its
guard is `length > 10` and it divides the raw SUM of deviations — while
the claimed formula (guard `length < 10`, MEAN absolute deviation over
the mean) yields 7/8. -/
theorem stabilityIndex_claim_counterexample :
    computeStabilityIndex psC1 hsC1 = 1 ∧
    stabilityClaimed psC1 hsC1 = 7/8 ∧
    ¬ ((1 : ℚ) = 7/8) := by
  refine ⟨?_, ?_, by norm_num⟩ <;>
    norm_num [computeStabilityIndex, stabilityClaimed, psC1, hsC1, takeLast, sumQ,
      abs_of_nonneg, abs_of_nonpos]

/-- C1 (amended): the appended stability index is 1.0 when AT MOST 10
samples exist, and otherwise `max(0, 1 − (pv + hv)/4)` where each
variation is the SUM of absolute deviations of the last 10 samples
divided by their mean (the herbivore mean guarded against zero).  The
positive-producer-mean hypothesis keeps the rational embedding in the
region where it agrees with JS (a zero mean would produce NaN there);
the length hypothesis makes «the last 10 herbivore samples» well
defined. -/
theorem stabilityIndex_amended (ps hs : List ℚ)
    (hp : 0 < sumQ (takeLast 10 ps)) (hlen : 10 ≤ hs.length) :
    computeStabilityIndex ps hs = stabilityAmendedSpec ps hs := by
  by_cases h : ps.length > 10
  · have hp10 : (takeLast 10 ps).length = 10 := takeLast_length_of_le ps (by omega)
    have hh10 : (takeLast 10 hs).length = 10 := takeLast_length_of_le hs hlen
    have h2 : ¬ ps.length ≤ 10 := by omega
    simp only [computeStabilityIndex, stabilityAmendedSpec, if_pos h, if_neg h2,
      hp10, hh10]
    norm_num
  · have h2 : ps.length ≤ 10 := by omega
    simp only [computeStabilityIndex, stabilityAmendedSpec, if_neg h, if_pos h2]

/-- C1 witness: the amended formula at a 12-sample series. -/
theorem stabilityIndex_amended_witness :
    0 < sumQ (takeLast 10 ([20, 20, 10, 30, 10, 30, 10, 30, 10, 30, 10, 30] : List ℚ)) ∧
    10 ≤ ([5, 5, 5, 5, 5, 5, 5, 5, 5, 5, 5, 5] : List ℚ).length ∧
    computeStabilityIndex [20, 20, 10, 30, 10, 30, 10, 30, 10, 30, 10, 30]
        [5, 5, 5, 5, 5, 5, 5, 5, 5, 5, 5, 5] =
      stabilityAmendedSpec [20, 20, 10, 30, 10, 30, 10, 30, 10, 30, 10, 30]
        [5, 5, 5, 5, 5, 5, 5, 5, 5, 5, 5, 5] := by
  refine ⟨?_, ?_,
    stabilityIndex_amended _ _ ?_ ?_⟩ <;>
    norm_num [takeLast, sumQ]

/-- C2: restoring a saved snapshot does not reproduce the saved world.
The snapshot records day 5 and one active disturbance, but
`loadSimulation` rebuilds the Environment with internal day 0 and an
empty disturbance list (and rebuilds the Grid through the randomized
constructor), for every randomness and sqrt oracle. -/
theorem loadSimulation_not_roundtrip :
    ∀ (sqrtO : ℚ → ℚ) (r : Rng) (k : ℕ),
      (loadSimulation c2Saved sqrtO r k).environment.disturbances = [] ∧
      (loadSimulation c2Saved sqrtO r k).environment.day = 0 ∧
      (loadSimulation c2Saved sqrtO r k).environment.getActiveDisturbances = [] ∧
      c2Saved.state.disturbance = some c2Disturbance ∧
      c2Disturbance.active = true ∧
      c2Saved.state.day = 5 := by
  intro sqrtO r k
  exact ⟨rfl, rfl, rfl, rfl, rfl, rfl⟩

/-- C9: `initialize` performs no validation: on a config with grid
dimensions 0 × (−3) and producer count −5 it still builds and publishes
a state — an Environment whose config falls back to width 50 and keeps
the negative height, an empty grid and an empty organism table — instead
of rejecting the configuration. -/
theorem initialize_performs_no_validation :
    ∀ (sqrtO : ℚ → ℚ) (r : Rng) (names : ℕ → String),
      (initializeSimulation cfgBad sqrtO r 0 names).grid.cells = [] ∧
      (initializeSimulation cfgBad sqrtO r 0 names).organisms = [] ∧
      (initializeSimulation cfgBad sqrtO r 0 names).environment.config.width = 50 ∧
      (initializeSimulation cfgBad sqrtO r 0 names).environment.config.height = -3 ∧
      (initializeSimulation cfgBad sqrtO r 0 names).state.paused = true ∧
      (initializeSimulation cfgBad sqrtO r 0 names).state.day = 0 := by
  intro sqrtO r names
  exact ⟨rfl, rfl, rfl, rfl, rfl, rfl⟩

/-- `updateSeasonalFactors` never touches the disturbance list. -/
theorem updateSeasonalFactors_disturbances (e : Environment) (j1 j2 : ℚ) :
    (e.updateSeasonalFactors j1 j2).disturbances = e.disturbances := by
  rcases hs : e.config.season <;>
    simp [Environment.updateSeasonalFactors, hs]

/-- `addDisturbance` appends exactly the registered disturbance. -/
theorem addDisturbance_disturbances (e : Environment) (t : DisturbanceType)
    (i dur : ℚ) (a : Area) :
    ((e.addDisturbance t i dur a).2).disturbances =
      e.disturbances ++
        [{ dtype := t, intensity := i, duration := dur, affectedArea := a,
           current := 0, active := true }] := rfl

/-- One `Environment.update` acts on the disturbance list as an aging
pass, possibly followed by one appended random disturbance whose
intensity is `0.2 + draw × 0.5`. -/
theorem update_disturbances_cases (e : Environment) (r : Rng) (k : ℕ) :
    ((e.update r k).1).disturbances = agePass e.disturbances ∨
    ∃ D : Disturbance,
      ((e.update r k).1).disturbances = agePass e.disturbances ++ [D] ∧
      D.intensity = 1/5 + r (k+4) * (1/2) := by
  simp only [Environment.update]
  split
  · right
    simp only [Environment.generateRandomDisturbance, addDisturbance_disturbances,
      Environment.updateDisturbances, updateSeasonalFactors_disturbances]
    exact ⟨_, rfl, rfl⟩
  · left
    simp only [Environment.updateDisturbances, updateSeasonalFactors_disturbances]

/-- `agePass` splits over list append. -/
theorem agePass_append (l1 l2 : List Disturbance) :
    agePass (l1 ++ l2) = agePass l1 ++ agePass l2 := by
  simp [agePass, List.filterMap_append]

/-- `agePass` preserves the intensity of every surviving disturbance. -/
theorem agePass_intensity (P : ℚ → Prop) (l : List Disturbance)
    (h : ∀ x ∈ l, P x.intensity) : ∀ x ∈ agePass l, P x.intensity := by
  intro x hx
  simp only [agePass, List.mem_filterMap] at hx
  obtain ⟨y, hy, hxy⟩ := hx
  by_cases ha : y.active
  · simp only [ha, Bool.not_true, Bool.false_eq_true, if_false] at hxy
    split at hxy
    · exact absurd hxy (by simp)
    · have := Option.some.inj hxy
      have hint : x.intensity = y.intensity := by rw [← this]
      rw [hint]
      exact h y hy
  · simp [ha] at hxy

/-- Aging the registered Fire before its last tick just increments its
elapsed counter. -/
theorem agePass_fire_step (i : ℚ) (d : ℕ) (area : Area) (n : ℕ)
    (h : n + 1 < d) :
    agePass [fireDist i d area n] = [fireDist i d area (n+1)] := by
  have hlt : ¬ ((n : ℚ) + 1 ≥ (d : ℚ)) := by
    exact_mod_cast not_le.mpr h
  simp only [agePass, fireDist, List.filterMap]
  norm_num [hlt]

/-- Aging the registered Fire at its last tick removes it. -/
theorem agePass_fire_done (i : ℚ) (d : ℕ) (area : Area) (n : ℕ)
    (h : d ≤ n + 1) :
    agePass [fireDist i d area n] = [] := by
  have hge : ((n : ℚ) + 1 ≥ (d : ℚ)) := by exact_mod_cast h
  simp only [agePass, fireDist, List.filterMap]
  norm_num [hge]

/-- The aged Fire disturbance (with any accompanying low-intensity
random disturbances) survives exactly the first `d − 1` updates. -/
theorem fire_invariant (e : Environment) (area : Area) (i : ℚ) (d : ℕ)
    (r : Rng) (he : e.disturbances = []) (hd : 1 ≤ d)
    (hr : ∀ n, 0 ≤ r n ∧ r n < 1) :
    ∀ n k0, ∃ rest,
      (envIterate r ((e.addDisturbance DisturbanceType.Fire i (d : ℚ) area).2, k0)
          n).1.disturbances =
        (if n < d then [fireDist i d area n] else []) ++ rest ∧
      ∀ x ∈ rest, x.intensity < 7/10 := by
  intro n
  induction n with
  | zero =>
      intro k0
      refine ⟨[], ?_, by simp⟩
      simp only [envIterate, addDisturbance_disturbances, he, List.nil_append]
      rw [if_pos (by omega)]
      simp [fireDist]
  | succ n ih =>
      intro k0
      obtain ⟨rest, hrest, hsmall⟩ := ih k0
      have hD :=
        update_disturbances_cases
          (envIterate r ((e.addDisturbance DisturbanceType.Fire i (d : ℚ) area).2, k0) n).1
          r
          (envIterate r ((e.addDisturbance DisturbanceType.Fire i (d : ℚ) area).2, k0) n).2
      have hsmall2 : ∀ x ∈ agePass rest, x.intensity < 7/10 :=
        agePass_intensity (fun q => q < 7/10) rest hsmall
      have hstep :
          agePass ((if n < d then [fireDist i d area n] else []) ++ rest) =
            (if n + 1 < d then [fireDist i d area (n+1)] else []) ++ agePass rest := by
        rw [agePass_append]
        by_cases h1 : n + 1 < d
        · rw [if_pos (by omega), if_pos h1, agePass_fire_step i d area n h1]
        · by_cases h0 : n < d
          · rw [if_pos h0, if_neg h1, agePass_fire_done i d area n (by omega)]
          · rw [if_neg h0, if_neg h1]
            simp [agePass]
      rcases hD with hcase | ⟨D, hcase, hDint⟩
      · refine ⟨agePass rest, ?_, hsmall2⟩
        show (envIterate r _ (n+1)).1.disturbances = _
        rw [envIterate]
        rw [hcase, hrest, hstep]
      · refine ⟨agePass rest ++ [D], ?_, ?_⟩
        · show (envIterate r _ (n+1)).1.disturbances = _
          rw [envIterate]
          rw [hcase, hrest, hstep, List.append_assoc]
        · intro x hx
          rcases List.mem_append.mp hx with hx | hx
          · exact hsmall2 x hx
          · have hx' : x = D := by simpa using hx
            rw [hx', hDint]
            linarith [(hr ((envIterate r ((e.addDisturbance DisturbanceType.Fire i (d : ℚ) area).2, k0) n).2 + 4)).2]

/-- C7: a Fire disturbance registered with intensity `i ≥ 0.7` and
duration `d ≥ 1` on an environment with no prior disturbances
immediately shifts the global temperature by exactly `5 × i` before
reclamping, stays among the active disturbances (with elapsed age `n`)
after each of the first `d − 1` subsequent `Environment.update` calls,
and is gone from them after the `d`-th — for every random stream with
values in `[0, 1)` (spontaneous random disturbances all have intensity
in `[0.2, 0.7)` and so can never be confused with it). -/
theorem fire_disturbance_lifecycle (e : Environment) (area : Area) (i : ℚ)
    (d : ℕ) (r : Rng) (he : e.disturbances = []) (hd : 1 ≤ d)
    (hi : 7/10 ≤ i) (hr : ∀ n, 0 ≤ r n ∧ r n < 1) :
    fireLifecycleProp e area i d r := by
  refine ⟨rfl, ?_, ?_⟩
  · intro n h1 h2
    obtain ⟨rest, hrest, -⟩ :=
      fire_invariant e area i d r he hd hr n 0
    rw [if_pos h2] at hrest
    refine ⟨fireDist i d area n, ?_, rfl, rfl, rfl, rfl⟩
    simp only [Environment.getActiveDisturbances, List.mem_filter, hrest]
    exact ⟨by simp, rfl⟩
  · intro D hD
    obtain ⟨rest, hrest, hsmall⟩ :=
      fire_invariant e area i d r he hd hr d 0
    rw [if_neg (by omega), List.nil_append] at hrest
    simp only [Environment.getActiveDisturbances, List.mem_filter, hrest] at hD
    have := hsmall D hD.1
    exact ne_of_lt (lt_of_lt_of_le this hi)

/-- C7 witness: the lifecycle at intensity 1 and duration 5 on a clean
environment with the constant stream 1/2. -/
theorem fire_disturbance_lifecycle_witness :
    e7.disturbances = [] ∧ 1 ≤ 5 ∧ (7/10 : ℚ) ≤ 1 ∧
    (∀ n, 0 ≤ rW n ∧ rW n < 1) ∧
    fireLifecycleProp e7 areaW 1 5 rW := by
  refine ⟨rfl, by norm_num, by norm_num, fun n => by norm_num [rW],
    fire_disturbance_lifecycle e7 areaW 1 5 rW rfl (by norm_num) (by norm_num)
      (fun n => by norm_num [rW])⟩

set_option maxHeartbeats 4000000 in
/-- C6: on a 1×1 grid, a producer with maxAge 1 dies during step 1 but
is still present — marked dead — in both the organism table and the
(0,0) cell at the end of that step, and is gone from both by the end of
step 2: removal is deferred to the step after its death is observed. -/
theorem dead_producer_deferred_removal :
    (tableGet c6Step1.organisms "p1").map (·.isDead) = some true ∧
    (c6Step1.grid.getCell ⟨0, 0⟩).map (·.organisms) = some ["p1"] ∧
    tableGet c6Step2.organisms "p1" = none ∧
    (c6Step2.grid.getCell ⟨0, 0⟩).map (·.organisms) = some [] := by
  norm_num [c6Step1, c6Step2, c6Run1, c6World, c6Env, c6Cell, c6Producer, c6Rng,
    c6Names, runCycle, Environment.update, Environment.updateSeasonalFactors,
    Environment.updateDisturbances, agePass, Environment.generateRandomDisturbance,
    Environment.getConfig, Environment.getActiveDisturbances,
    Environment.yearLength, Environment.seasonLength,
    applyActiveDisturbances, Grid.updateEnvironment, Grid.updateEnvironmentCell,
    Grid.getCell, Grid.modifyCell, listModify, processEntry, processProducer,
    newProducer, newOrganism, Producer.update, Organism.update,
    Producer.getAttributes, Organism.getAttributes,
    Producer.getTemperatureFactor, Producer.getSeasonalFactor,
    canReproduceDraw, tableGet, tableSet, tableDelete, countsGet, countsBump,
    posKey, applyPositionChanges, applyOffspring, applyDeadRemoval,
    Grid.removeOrganism, producerCountOf, herbivoreCountOf, carnivoreCountOf,
    decomposerCountOf, statsPush, computeStabilityIndex, takeLast, sumQ,
    biodiversityOf, totalEnergyOf, totalNutrientsOf, OrgAttrs.toPAttrs,
    PAttrs.empty, jsOr, jsOrO, jsOrS, jsOrSO, jsOrZ, jsOrZO, randIndex,
    intRangeIncl, Grid.addNutrients, Stats.empty, List.foldl, List.filterMap,
    OrgAttrs.consumerTypeField]

end Ecosim
